import Mathlib

/-!
# Neural Load Ring firmware — shallow embedding and verification

This file embeds, in Lean 4, the parts of the Neural Load Ring firmware that
the verified properties are about:

* `cue_processor.c` — the autonomous cue decision engine,
* `biometric_algorithms.c` — the incremental RR-interval estimator,
* `wellness_processor.c` — the PPG peak detector,
* `thermal_feature.c` — the thermal actuator state machine,
* `signature_feel.c` — the signature-feel pattern player.

Modelling conventions:

* C unsigned machine integers are modelled as `ℕ`; `uint32_t` subtraction
  (which wraps) is modelled by `wsub`, and counters that can realistically
  wrap are reduced `% 2^32` (or `% 2^8`) exactly where the C type would wrap.
* C `float` arithmetic is modelled exactly over `ℚ`; float literals such as
  `0.2f` are taken at their decimal value.  The transcendental library calls
  (`sqrtf`, `sinf`, `cosf`) are modelled as explicit function parameters,
  and theorems that depend on them assume only the range facts that the C
  library functions guarantee (e.g. `sqrtf x ≥ 0`, `cosf x ∈ [-1,1]`).
* Pointer out-parameters become returned values; functions that mutate the
  module-level `static` state become functions from state to state.
-/

/-- The constant 2^32, the modulus of `uint32_t` arithmetic. -/
def U32 : ℕ := 4294967296

/-- Model of `uint32_t` subtraction `a - b` (wraps modulo 2^32); faithful for
operands below 2^32. -/
def wsub (a b : ℕ) : ℕ := if b ≤ a then a - b else a + U32 - b

/-! ## Cue processor (`cue_processor.h` / `cue_processor.c`) -/

def CUE_MIN_CONFIDENCE : ℕ := 60
def CUE_MICROVAR_ELEVATED : ℕ := 500
def CUE_MICROVAR_HIGH : ℕ := 800
def CUE_MICROVAR_CRITICAL : ℕ := 1200
def CUE_COHERENCE_MEDIUM : ℕ := 50
def CUE_COHERENCE_LOW : ℕ := 30
def CUE_COHERENCE_CRITICAL : ℕ := 15
def CUE_STABILITY_UNSTABLE : ℕ := 40
def CUE_COOLDOWN_VIBRATION_MS : ℕ := 30000
def CUE_COOLDOWN_THERMAL_MS : ℕ := 120000
def CUE_COOLDOWN_COMBINED_MS : ℕ := 180000
def CUE_COOLDOWN_ALERT_MS : ℕ := 600000
def CUE_MAX_PER_HOUR : ℕ := 12
def CUE_HOUR_MS : ℕ := 3600000
def CUE_HISTORY_SIZE : ℕ := 8

def VIB_PATTERN_OFF : ℕ := 0
def VIB_PATTERN_SINGLE : ℕ := 1
def VIB_PATTERN_DOUBLE : ℕ := 2
def VIB_PATTERN_TRIPLE : ℕ := 3
def VIB_PATTERN_HEARTBEAT : ℕ := 4
def VIB_PATTERN_BREATHING : ℕ := 5
def VIB_PATTERN_ALERT : ℕ := 6

/-- Model of `cue_type_t`. -/
inductive CueType where
  | CUE_TYPE_NONE
  | CUE_TYPE_THERMAL
  | CUE_TYPE_VIBRATION
  | CUE_TYPE_BREATHING
  | CUE_TYPE_COMBINED
  | CUE_TYPE_ALERT
  | CUE_TYPE_CHECK_FIT
deriving DecidableEq, Repr

export CueType (CUE_TYPE_NONE CUE_TYPE_THERMAL CUE_TYPE_VIBRATION
  CUE_TYPE_BREATHING CUE_TYPE_COMBINED CUE_TYPE_ALERT CUE_TYPE_CHECK_FIT)

/-- Model of `cue_priority_t`. -/
inductive CuePriority where
  | CUE_PRIORITY_LOW
  | CUE_PRIORITY_NORMAL
  | CUE_PRIORITY_HIGH
  | CUE_PRIORITY_ALERT
deriving DecidableEq, Repr

export CuePriority (CUE_PRIORITY_LOW CUE_PRIORITY_NORMAL CUE_PRIORITY_HIGH
  CUE_PRIORITY_ALERT)

/-- Model of `cue_input_t`. -/
structure CueInput where
  timestamp_ms : ℕ
  micro_var_pct100 : ℕ
  coherence_pct : ℕ
  stability_pct : ℕ
  confidence_pct : ℕ
  stress_level : ℕ
  artifact_rate_pct : ℕ
deriving DecidableEq, Repr

/-- Model of `cue_output_t`. -/
structure CueOutput where
  type : CueType
  priority : CuePriority
  thermal_intensity : ℕ
  thermal_duration_s : ℕ
  vib_pattern : ℕ
  vib_intensity : ℕ
  cooldown_ms : ℕ
deriving DecidableEq, Repr

/-- Model of `cue_preferences_t`. -/
structure CuePrefs where
  enabled : Bool
  max_thermal_pct : ℕ
  max_vib_pct : ℕ
  quiet_start_hour : ℕ
  quiet_end_hour : ℕ
  sensitivity : ℕ
  breathing_enabled : Bool
  thermal_enabled : Bool
  vibration_enabled : Bool
deriving DecidableEq, Repr

/-- Model of `intensity_profile_t`. -/
structure IntensityProfile where
  thermal_base : ℕ
  thermal_max : ℕ
  vib_base : ℕ
  vib_max : ℕ
  duration_mult : ℕ
deriving DecidableEq, Repr

/-- The static `PROFILES[3]` table, totalized over `ℕ` (indexing it with
`sensitivity ≥ 3` is out-of-bounds in the C source; we return the subtle
profile there). -/
def PROFILES : ℕ → IntensityProfile
  | 0 => ⟨25, 50, 15, 40, 7⟩
  | 1 => ⟨35, 70, 30, 60, 10⟩
  | 2 => ⟨45, 85, 45, 80, 13⟩
  | _ => ⟨25, 50, 15, 40, 7⟩

/-- The module-level `static` state `s_state` of `cue_processor.c`. -/
structure CueState where
  prefs : CuePrefs
  last_cue_ms : ℕ
  last_cue_type : CueType
  current_hour : ℕ
  hour_start_ms : ℕ
  cues_this_hour : ℕ
  consecutive_low_conf : ℕ
  coherence_history : List ℕ
  history_idx : ℕ
  history_count : ℕ
  total_generated : ℕ
  total_suppressed : ℕ
  inited : Bool
deriving DecidableEq, Repr

/-- Model of `clamp_intensity`. -/
def clamp_intensity (value max : ℕ) : ℕ :=
  if value > max then max else value

/-- Model of `is_quiet_hours`. -/
def is_quiet_hours (s : CueState) : Bool :=
  let hour := s.current_hour
  let start := s.prefs.quiet_start_hour
  let stop := s.prefs.quiet_end_hour
  if start > stop then decide (hour ≥ start) || decide (hour < stop)
  else decide (hour ≥ start) && decide (hour < stop)

/-- Model of `check_rate_limit` (mutates the hourly window, returns the verdict). -/
def check_rate_limit (s : CueState) (now_ms : ℕ) : Bool × CueState :=
  let s1 := if wsub now_ms s.hour_start_ms ≥ CUE_HOUR_MS
            then { s with cues_this_hour := 0, hour_start_ms := now_ms }
            else s
  (decide (s1.cues_this_hour < CUE_MAX_PER_HOUR), s1)

/-- Model of `can_trigger`. -/
def can_trigger (s : CueState) (type : CueType) (now_ms cooldown : ℕ) : Bool :=
  if s.last_cue_ms = 0 then true
  else
    let elapsed := wsub now_ms s.last_cue_ms
    if s.last_cue_type = type ∨ s.last_cue_type = CUE_TYPE_COMBINED then
      decide (elapsed ≥ cooldown)
    else
      decide (elapsed ≥ cooldown / 2)

/-- Model of `record_cue`. -/
def record_cue (s : CueState) (type : CueType) (now_ms : ℕ) : CueState :=
  { s with last_cue_ms := now_ms,
           last_cue_type := type,
           cues_this_hour := (s.cues_this_hour + 1) % 256,
           total_generated := (s.total_generated + 1) % U32 }

/-- Model of `suppress_cue`. -/
def suppress_cue (s : CueState) : CueState :=
  { s with total_suppressed := (s.total_suppressed + 1) % U32 }

/-- Model of `update_history`. -/
def update_history (s : CueState) (coherence : ℕ) : CueState :=
  { s with coherence_history := s.coherence_history.set s.history_idx coherence,
           history_idx := (s.history_idx + 1) % CUE_HISTORY_SIZE,
           history_count := if s.history_count < CUE_HISTORY_SIZE
                            then s.history_count + 1 else s.history_count }

/-- Model of `detect_deteriorating_trend`. -/
def detect_deteriorating_trend (s : CueState) : Bool :=
  if s.history_count < 6 then false
  else
    let half := s.history_count / 2
    let read_idx := (s.history_idx + CUE_HISTORY_SIZE - s.history_count) % CUE_HISTORY_SIZE
    let first_sum := (List.range half).foldl
      (fun acc i => acc + s.coherence_history.getD ((read_idx + i) % CUE_HISTORY_SIZE) 0) 0
    let second_sum := ((List.range s.history_count).drop half).foldl
      (fun acc i => acc + s.coherence_history.getD ((read_idx + i) % CUE_HISTORY_SIZE) 0) 0
    let first_avg := first_sum / half
    let second_avg := second_sum / (s.history_count - half)
    decide (first_avg > second_avg) && decide (first_avg - second_avg > first_avg / 10)

/-- Model of `build_no_cue`. -/
def build_no_cue : CueOutput :=
  { type := CUE_TYPE_NONE, priority := CUE_PRIORITY_LOW,
    thermal_intensity := 0, thermal_duration_s := 0,
    vib_pattern := 0, vib_intensity := 0, cooldown_ms := 0 }

/-- Model of `build_alert_cue`. -/
def build_alert_cue (s : CueState) (now_ms : ℕ) : CueOutput × CueState :=
  let p := PROFILES s.prefs.sensitivity
  ({ type := CUE_TYPE_ALERT, priority := CUE_PRIORITY_ALERT,
     thermal_intensity := clamp_intensity p.thermal_max s.prefs.max_thermal_pct,
     thermal_duration_s := (20 * p.duration_mult) / 10,
     vib_pattern := VIB_PATTERN_ALERT,
     vib_intensity := clamp_intensity p.vib_max s.prefs.max_vib_pct,
     cooldown_ms := CUE_COOLDOWN_ALERT_MS },
   record_cue s CUE_TYPE_COMBINED now_ms)

/-- Model of `build_combined_cue`. -/
def build_combined_cue (s : CueState) (input : CueInput) (now_ms : ℕ) :
    CueOutput × CueState :=
  let p := PROFILES s.prefs.sensitivity
  let coherence_deficit := CUE_COHERENCE_MEDIUM - input.coherence_pct
  let max_deficit := CUE_COHERENCE_MEDIUM - CUE_COHERENCE_CRITICAL
  let severity0 := (coherence_deficit * 100) / max_deficit
  let severity := if severity0 > 100 then 100 else severity0
  let thermal_range := p.thermal_max - p.thermal_base
  let vib_range := p.vib_max - p.vib_base
  ({ type := CUE_TYPE_COMBINED, priority := CUE_PRIORITY_HIGH,
     thermal_intensity := clamp_intensity
       (p.thermal_base + (thermal_range * severity) / 100) s.prefs.max_thermal_pct,
     thermal_duration_s := (15 * p.duration_mult) / 10,
     vib_pattern := VIB_PATTERN_HEARTBEAT,
     vib_intensity := clamp_intensity
       (p.vib_base + (vib_range * severity) / 100) s.prefs.max_vib_pct,
     cooldown_ms := CUE_COOLDOWN_COMBINED_MS },
   record_cue s CUE_TYPE_COMBINED now_ms)

/-- Model of `build_breathing_cue`. -/
def build_breathing_cue (s : CueState) (now_ms : ℕ) : CueOutput × CueState :=
  let p := PROFILES s.prefs.sensitivity
  ({ type := CUE_TYPE_BREATHING, priority := CUE_PRIORITY_NORMAL,
     thermal_intensity := 0, thermal_duration_s := 0,
     vib_pattern := VIB_PATTERN_BREATHING,
     vib_intensity := clamp_intensity ((p.vib_base * 80) / 100) s.prefs.max_vib_pct,
     cooldown_ms := CUE_COOLDOWN_COMBINED_MS },
   record_cue s CUE_TYPE_VIBRATION now_ms)

/-- Model of `build_vibration_cue`. -/
def build_vibration_cue (s : CueState) (input : CueInput) (now_ms : ℕ) :
    CueOutput × CueState :=
  let p := PROFILES s.prefs.sensitivity
  let pv : ℕ × ℕ :=
    if input.micro_var_pct100 > CUE_MICROVAR_HIGH then
      (VIB_PATTERN_DOUBLE, p.vib_max)
    else
      let range := input.micro_var_pct100 - CUE_MICROVAR_ELEVATED
      let max_range := CUE_MICROVAR_HIGH - CUE_MICROVAR_ELEVATED
      (VIB_PATTERN_SINGLE, p.vib_base + ((p.vib_max - p.vib_base) * range) / max_range)
  ({ type := CUE_TYPE_VIBRATION, priority := CUE_PRIORITY_NORMAL,
     thermal_intensity := 0, thermal_duration_s := 0,
     vib_pattern := pv.1,
     vib_intensity := clamp_intensity pv.2 s.prefs.max_vib_pct,
     cooldown_ms := CUE_COOLDOWN_VIBRATION_MS },
   record_cue s CUE_TYPE_VIBRATION now_ms)

/-- Model of `build_thermal_cue`. -/
def build_thermal_cue (s : CueState) (input : CueInput) (now_ms : ℕ) :
    CueOutput × CueState :=
  let p := PROFILES s.prefs.sensitivity
  let deficit := CUE_COHERENCE_MEDIUM - input.coherence_pct
  let max_deficit := CUE_COHERENCE_MEDIUM - CUE_COHERENCE_CRITICAL
  let severity0 := (deficit * 100) / max_deficit
  let severity := if severity0 > 100 then 100 else severity0
  let thermal_range := p.thermal_max - p.thermal_base
  let intensity := p.thermal_base + (thermal_range * severity) / 100
  let duration := ((10 + (10 * severity) / 100) * p.duration_mult) / 10
  ({ type := CUE_TYPE_THERMAL, priority := CUE_PRIORITY_LOW,
     thermal_intensity := clamp_intensity intensity s.prefs.max_thermal_pct,
     thermal_duration_s := duration,
     vib_pattern := VIB_PATTERN_OFF, vib_intensity := 0,
     cooldown_ms := CUE_COOLDOWN_THERMAL_MS },
   record_cue s CUE_TYPE_THERMAL now_ms)

/-- Model of `build_preventive_cue`. -/
def build_preventive_cue (s : CueState) (now_ms : ℕ) : CueOutput × CueState :=
  let p := PROFILES s.prefs.sensitivity
  ({ type := CUE_TYPE_THERMAL, priority := CUE_PRIORITY_LOW,
     thermal_intensity := clamp_intensity p.thermal_base s.prefs.max_thermal_pct,
     thermal_duration_s := (8 * p.duration_mult) / 10,
     vib_pattern := VIB_PATTERN_OFF, vib_intensity := 0,
     cooldown_ms := (CUE_COOLDOWN_THERMAL_MS * 3) / 2 },
   record_cue s CUE_TYPE_THERMAL now_ms)

/-- Model of `build_check_fit_cue` (note: `vib_intensity` is the literal 20, not passed
through `clamp_intensity`). -/
def build_check_fit_cue (s : CueState) (now_ms : ℕ) : CueOutput × CueState :=
  ({ type := CUE_TYPE_CHECK_FIT, priority := CUE_PRIORITY_LOW,
     thermal_intensity := 0, thermal_duration_s := 0,
     vib_pattern := VIB_PATTERN_TRIPLE, vib_intensity := 20,
     cooldown_ms := CUE_COOLDOWN_VIBRATION_MS * 3 },
   record_cue { s with consecutive_low_conf := 0 } CUE_TYPE_VIBRATION now_ms)

/-- Model of `cue_processor_init` (zeroed state, then default preferences). -/
def cue_processor_init : CueState :=
  { prefs := { enabled := true, max_thermal_pct := 80, max_vib_pct := 70,
               quiet_start_hour := 22, quiet_end_hour := 7, sensitivity := 1,
               breathing_enabled := true, thermal_enabled := true,
               vibration_enabled := true },
    last_cue_ms := 0, last_cue_type := CUE_TYPE_NONE, current_hour := 12,
    hour_start_ms := 0, cues_this_hour := 0, consecutive_low_conf := 0,
    coherence_history := List.replicate CUE_HISTORY_SIZE 0,
    history_idx := 0, history_count := 0,
    total_generated := 0, total_suppressed := 0, inited := true }

/-- Model of `cue_processor_set_preferences`. -/
def cue_processor_set_preferences (s : CueState) (p : CuePrefs) : CueState :=
  { s with prefs := p }

/-- Model of `cue_processor_set_hour`. -/
def cue_processor_set_hour (s : CueState) (hour : ℕ) : CueState :=
  if hour < 24 then { s with current_hour := hour } else s

/-- Model of `cue_processor_reset`. -/
def cue_processor_reset (s : CueState) : CueState :=
  { s with last_cue_ms := 0, last_cue_type := CUE_TYPE_NONE,
           consecutive_low_conf := 0, history_idx := 0, history_count := 0,
           cues_this_hour := 0, hour_start_ms := 0,
           coherence_history := List.replicate CUE_HISTORY_SIZE 0 }

/-- The `/* =========== DECISION CASCADE =========== */` block of
`cue_processor_generate` (rules 1–6 and the final "no intervention"
fall-through), run on the post-gate state `s2`.  In the C source each rule
is `if (condition) { if (can_trigger(...)) { build_...; return true; } }`,
i.e. a rule whose cooldown check fails falls through to the next rule —
hence each rule here is guarded by the conjunction of its condition and its
cooldown check. -/
def cue_decision_cascade (s2 : CueState) (input : CueInput) (now_ms : ℕ) :
    Bool × CueOutput × CueState :=
  if (input.stress_level > 90 ∨ input.micro_var_pct100 > CUE_MICROVAR_CRITICAL) ∧
     can_trigger s2 CUE_TYPE_COMBINED now_ms CUE_COOLDOWN_COMBINED_MS = true then
    let r := build_alert_cue s2 now_ms
    (true, r.1, r.2)
  else if (input.coherence_pct < CUE_COHERENCE_LOW ∧
           input.micro_var_pct100 > CUE_MICROVAR_ELEVATED) ∧
          can_trigger s2 CUE_TYPE_COMBINED now_ms CUE_COOLDOWN_COMBINED_MS = true then
    let r := build_combined_cue s2 input now_ms
    (true, r.1, r.2)
  else if (input.stability_pct < CUE_STABILITY_UNSTABLE ∧
           s2.prefs.breathing_enabled = true ∧ s2.prefs.vibration_enabled = true) ∧
          can_trigger s2 CUE_TYPE_VIBRATION now_ms CUE_COOLDOWN_COMBINED_MS = true then
    let r := build_breathing_cue s2 now_ms
    (true, r.1, r.2)
  else if (input.micro_var_pct100 > CUE_MICROVAR_ELEVATED ∧
           s2.prefs.vibration_enabled = true) ∧
          can_trigger s2 CUE_TYPE_VIBRATION now_ms CUE_COOLDOWN_VIBRATION_MS = true then
    let r := build_vibration_cue s2 input now_ms
    (true, r.1, r.2)
  else if (input.coherence_pct < CUE_COHERENCE_MEDIUM ∧
           s2.prefs.thermal_enabled = true) ∧
          can_trigger s2 CUE_TYPE_THERMAL now_ms CUE_COOLDOWN_THERMAL_MS = true then
    let r := build_thermal_cue s2 input now_ms
    (true, r.1, r.2)
  else if detect_deteriorating_trend s2 = true ∧ s2.prefs.thermal_enabled = true ∧
          can_trigger s2 CUE_TYPE_THERMAL now_ms (CUE_COOLDOWN_THERMAL_MS * 2) = true then
    let r := build_preventive_cue s2 now_ms
    (true, r.1, r.2)
  else
    (false, build_no_cue, s2)

/-- The confidence-gating block of `cue_processor_generate` (runs on the
state `s1` that already absorbed the history update), followed by the
artifact-rate gate and the decision cascade. -/
def cue_confidence_gate (s1 : CueState) (input : CueInput) (now_ms : ℕ) :
    Bool × CueOutput × CueState :=
  if input.confidence_pct < CUE_MIN_CONFIDENCE then
    let s2 := { s1 with consecutive_low_conf := (s1.consecutive_low_conf + 1) % 256 }
    if s2.consecutive_low_conf ≥ 3 ∧ s2.prefs.vibration_enabled = true ∧
       can_trigger s2 CUE_TYPE_VIBRATION now_ms (CUE_COOLDOWN_VIBRATION_MS * 2) = true then
      let r := build_check_fit_cue s2 now_ms
      (true, r.1, r.2)
    else (false, build_no_cue, suppress_cue s2)
  else
    let s2 := { s1 with consecutive_low_conf := 0 }
    if input.artifact_rate_pct > 25 then
      (false, build_no_cue, suppress_cue s2)
    else
      cue_decision_cascade s2 input now_ms

/-- Model of `cue_processor_generate`: returns (triggered, output, new state). -/
def cue_processor_generate (s : CueState) (input : CueInput) :
    Bool × CueOutput × CueState :=
  if ¬ s.inited then (false, build_no_cue, s)
  else
    let now_ms := input.timestamp_ms
    if ¬ s.prefs.enabled then (false, build_no_cue, suppress_cue s)
    else if is_quiet_hours s then (false, build_no_cue, suppress_cue s)
    else
      let rl := check_rate_limit s now_ms
      if ¬ rl.1 then (false, build_no_cue, suppress_cue rl.2)
      else
        cue_confidence_gate (update_history rl.2 input.coherence_pct) input now_ms

/-! ## Biometric estimator (`biometric_algorithms.c`)

Float arithmetic is modelled exactly over `ℚ`; the library call `sqrtf` is a
function parameter `sq` (theorems assume only that it is nonnegative on
nonnegative inputs, which `sqrtf` guarantees). -/

def MIN_RR_MS : ℚ := 300
def MAX_RR_MS : ℚ := 2000
def MAX_RR_CHANGE_ALPHA : ℚ := 1/5
def BASELINE_ALPHA : ℚ := 1/200
def MIN_BASELINE_SAMPLES : ℕ := 60
def DEFAULT_BASELINE_RMSSD : ℚ := 40

/-- Model of `hr_metrics_t`. -/
structure HrMetrics where
  last_rr_ms : ℚ
  mean_rr_ms : ℚ
  mean_diff_sq : ℚ
  rmssd : ℚ
  baseline_rmssd : ℚ
  baseline_established : Bool
  stress_score : ℚ
  valid_samples : ℕ
  total_samples : ℕ
deriving DecidableEq, Repr

/-- Model of `biometrics_reset` (memset to zero, then reseed the baseline). -/
def biometrics_reset : HrMetrics :=
  { last_rr_ms := 0, mean_rr_ms := 0, mean_diff_sq := 0, rmssd := 0,
    baseline_rmssd := DEFAULT_BASELINE_RMSSD, baseline_established := false,
    stress_score := 0, valid_samples := 0, total_samples := 0 }

/-- Step 3 of `biometrics_process_rr` (incremental RMSSD and mean-diff-sq
update); `sq` stands for `sqrtf`. -/
def bio_update_rmssd (sq : ℚ → ℚ) (m : HrMetrics) (rr_ms : ℚ) : HrMetrics :=
  if m.valid_samples > 0 then
    let diff := rr_ms - m.last_rr_ms
    let diff_sq := diff * diff
    let mds := if m.valid_samples = 1 then diff_sq
               else (1/10) * diff_sq + (9/10) * m.mean_diff_sq
    { m with mean_diff_sq := mds, rmssd := sq mds }
  else m

/-- The mean-RR update of `biometrics_process_rr`. -/
def bio_update_mean (m : HrMetrics) (rr_ms : ℚ) : HrMetrics :=
  if m.valid_samples = 0 then { m with mean_rr_ms := rr_ms }
  else { m with mean_rr_ms := (1/20) * rr_ms + (19/20) * m.mean_rr_ms }

/-- The baseline-adaptation part of step 4 of `biometrics_process_rr`. -/
def bio_baseline (m : HrMetrics) : HrMetrics :=
  let mb := if m.valid_samples > 10
            then { m with baseline_rmssd :=
                     BASELINE_ALPHA * m.rmssd + (1 - BASELINE_ALPHA) * m.baseline_rmssd }
            else m
  if mb.valid_samples > MIN_BASELINE_SAMPLES
  then { mb with baseline_established := true } else mb

/-- The raw stress mapping of step 4 of `biometrics_process_rr`
(3-segment piecewise-linear curve, then the explicit clamp to [0,1]). -/
def bio_stress_raw (ratio : ℚ) : ℚ :=
  let stress_raw0 : ℚ :=
    if ratio ≥ 3/2 then 0
    else if ratio ≤ 1/2 then 1
    else 1 - (ratio - 1/2)
  let stress_raw1 := if stress_raw0 < 0 then 0 else stress_raw0
  if stress_raw1 > 1 then 1 else stress_raw1

/-- Step 4 of `biometrics_process_rr` (adaptive baseline and personalized
stress scoring). -/
def bio_update_stress (m : HrMetrics) : HrMetrics :=
  if m.rmssd > 0 then
    let mb2 := bio_baseline m
    let stress_raw := bio_stress_raw (mb2.rmssd / mb2.baseline_rmssd)
    if mb2.valid_samples = 1 then { mb2 with stress_score := stress_raw }
    else { mb2 with stress_score := (1/5) * stress_raw + (4/5) * mb2.stress_score }
  else m

/-- Model of `biometrics_process_rr`; `sq` stands for `sqrtf`. -/
def biometrics_process_rr (sq : ℚ → ℚ) (m : HrMetrics) (rr_ms : ℚ) :
    Bool × HrMetrics :=
  if rr_ms < MIN_RR_MS ∨ rr_ms > MAX_RR_MS then (false, m)
  else if m.valid_samples > 0 ∧ |rr_ms - m.last_rr_ms| > m.last_rr_ms * MAX_RR_CHANGE_ALPHA then
    (false, m)
  else
    let m3 := bio_update_stress (bio_update_mean (bio_update_rmssd sq m rr_ms) rr_ms)
    (true, { m3 with last_rr_ms := rr_ms,
                     valid_samples := m3.valid_samples + 1,
                     total_samples := m3.total_samples + 1 })

/-- Fold `biometrics_process_rr` over a list of RR inputs, starting anywhere. -/
def biometrics_run_from (sq : ℚ → ℚ) (m : HrMetrics) (rrs : List ℚ) : HrMetrics :=
  rrs.foldl (fun acc rr => (biometrics_process_rr sq acc rr).2) m

/-- Fold `biometrics_process_rr` over a list of RR inputs, starting from
`biometrics_reset`. -/
def biometrics_run (sq : ℚ → ℚ) (rrs : List ℚ) : HrMetrics :=
  biometrics_run_from sq biometrics_reset rrs

/-! ## PPG peak detector (`wellness_processor.c`) -/

def MA_DC_WINDOW : ℕ := 5
def MA_INTEGRATOR_WINDOW : ℕ := 12
def REFRACTORY_MS : ℕ := 300
def INITIAL_THRESHOLD : ℚ := 1/20
def THRESH_DECAY : ℚ := 199/200
def THRESH_BOOST_ALPHA : ℚ := 1/10
def RR_BUFFER_SIZE : ℕ := 32

/-- The RR ring buffer `g_rr_buffer`/`g_rr_head`/`g_rr_tail`/`g_rr_count`. -/
structure RrBuf where
  buf : List ℚ
  head : ℕ
  tail : ℕ
  count : ℕ
deriving DecidableEq, Repr

/-- The push-with-drop-oldest sequence from `wellness_process_sample`
(lines 87–94 of `wellness_processor.c`). -/
def rr_push (b : RrBuf) (rr : ℚ) : RrBuf :=
  let b1 := if b.count = RR_BUFFER_SIZE
            then { b with tail := (b.tail + 1) % RR_BUFFER_SIZE, count := b.count - 1 }
            else b
  { b1 with buf := b1.buf.set b1.head rr,
            head := (b1.head + 1) % RR_BUFFER_SIZE,
            count := b1.count + 1 }

/-- Model of `ppg_peak_state_t` together with the RR ring buffer statics. -/
structure WellnessState where
  dc_buffer : List ℚ
  integ_buffer : List ℚ
  dc_idx : ℕ
  integ_idx : ℕ
  dc_sum : ℚ
  integ_sum : ℚ
  prev_dc_removed : ℚ
  threshold : ℚ
  last_peak_ts_ms : ℕ
  inited : Bool
  rrbuf : RrBuf
deriving DecidableEq, Repr

/-- Model of `wellness_reset` (also the initial value of the zeroed statics). -/
def wellness_reset : WellnessState :=
  { dc_buffer := List.replicate MA_DC_WINDOW 0,
    integ_buffer := List.replicate MA_INTEGRATOR_WINDOW 0,
    dc_idx := 0, integ_idx := 0, dc_sum := 0, integ_sum := 0,
    prev_dc_removed := 0, threshold := 0, last_peak_ts_ms := 0, inited := false,
    rrbuf := { buf := List.replicate RR_BUFFER_SIZE 0, head := 0, tail := 0, count := 0 } }

/-- Model of `moving_average_update`: returns (buffer, idx, accum, average). -/
def moving_average_update (buffer : List ℚ) (idx size : ℕ) (accum sample : ℚ) :
    List ℚ × ℕ × ℚ × ℚ :=
  let accum1 := accum - buffer.getD idx 0 + sample
  (buffer.set idx sample, (idx + 1) % size, accum1, accum1 / (size : ℚ))

/-- The first-call seeding block of `wellness_process_sample`. -/
def wellness_seed (s : WellnessState) (sample : ℚ) : WellnessState :=
  if s.inited then s
  else
    { s with dc_buffer := List.replicate MA_DC_WINDOW sample,
             integ_buffer := List.replicate MA_INTEGRATOR_WINDOW 0,
             dc_sum := sample * (MA_DC_WINDOW : ℚ), integ_sum := 0,
             prev_dc_removed := sample, threshold := INITIAL_THRESHOLD,
             last_peak_ts_ms := 0, dc_idx := 0, integ_idx := 0, inited := true }

/-- Stages 1–4 of `wellness_process_sample` (DC removal, derivative,
squaring, moving integration): returns the updated filter state and the
integrated energy `integ_avg`. -/
def wellness_filter (s : WellnessState) (sample : ℚ) : WellnessState × ℚ :=
  let dc := moving_average_update s.dc_buffer s.dc_idx MA_DC_WINDOW s.dc_sum sample
  let dc_removed := sample - dc.2.2.2
  let diff := dc_removed - s.prev_dc_removed
  let squared := diff * diff
  let ig := moving_average_update s.integ_buffer s.integ_idx MA_INTEGRATOR_WINDOW s.integ_sum squared
  ({ s with dc_buffer := dc.1, dc_idx := dc.2.1, dc_sum := dc.2.2.1,
            prev_dc_removed := dc_removed,
            integ_buffer := ig.1, integ_idx := ig.2.1, integ_sum := ig.2.2.1 },
   ig.2.2.2)

/-- Model of `wellness_process_sample`: the out-parameter becomes an `Option ℚ`
(`some rr` exactly when the C code writes `*out_rr_ms`). -/
def wellness_process_sample (s : WellnessState) (sample : ℚ) (timestamp_ms : ℕ) :
    WellnessState × Option ℚ :=
  let s0 := wellness_seed s sample
  let f := wellness_filter s0 sample
  let s1 := f.1
  let integ_avg := f.2
  if (s1.last_peak_ts_ms = 0 ∨ wsub timestamp_ms s1.last_peak_ts_ms > REFRACTORY_MS) ∧
     integ_avg > s1.threshold then
    let s2 := { s1 with threshold :=
                  (1 - THRESH_BOOST_ALPHA) * s1.threshold + THRESH_BOOST_ALPHA * integ_avg }
    if s2.last_peak_ts_ms > 0 then
      let rr : ℚ := (wsub timestamp_ms s2.last_peak_ts_ms : ℕ)
      ({ s2 with rrbuf := rr_push s2.rrbuf rr, last_peak_ts_ms := timestamp_ms }, some rr)
    else
      ({ s2 with last_peak_ts_ms := timestamp_ms }, none)
  else
    ({ s1 with threshold := s1.threshold * THRESH_DECAY }, none)

/-! ## Thermal driver (`thermal_feature.h` / `thermal_feature.c`) -/

def THERMAL_MAX_INTENSITY_PCT : ℕ := 80
def THERMAL_MAX_DURATION_S : ℕ := 60
def THERMAL_MAX_SKIN_TEMP_C : ℤ := 42
def THERMAL_COOLDOWN_S : ℕ := 30
def THERMAL_RAMP_TIME_MS : ℕ := 2000
def TEMP_CHECK_INTERVAL_MS : ℕ := 500
def RUNAWAY_RATE_C_PER_S : ℤ := 2

/-- Model of `uint32_t` addition (wraps modulo 2^32). -/
def wadd (a b : ℕ) : ℕ := (a + b) % U32

/-- Model of `thermal_state_t`. -/
inductive ThermalStateTag where
  | THERMAL_STATE_OFF
  | THERMAL_STATE_RAMPING
  | THERMAL_STATE_ACTIVE
  | THERMAL_STATE_COOLDOWN
  | THERMAL_STATE_FAULT
deriving DecidableEq, Repr

export ThermalStateTag (THERMAL_STATE_OFF THERMAL_STATE_RAMPING
  THERMAL_STATE_ACTIVE THERMAL_STATE_COOLDOWN THERMAL_STATE_FAULT)

/-- Model of `thermal_fault_t`. -/
inductive ThermalFault where
  | THERMAL_FAULT_NONE
  | THERMAL_FAULT_OVER_TEMP
  | THERMAL_FAULT_RUNAWAY
  | THERMAL_FAULT_SENSOR_FAIL
  | THERMAL_FAULT_TIMEOUT
deriving DecidableEq, Repr

export ThermalFault (THERMAL_FAULT_NONE THERMAL_FAULT_OVER_TEMP
  THERMAL_FAULT_RUNAWAY THERMAL_FAULT_SENSOR_FAIL THERMAL_FAULT_TIMEOUT)

/-- A `thermal_step_t`: (duration_ms, intensity_pct). -/
abbrev ThermalStep := ℕ × ℕ

/-- Model of `PATTERN_PULSE` (the `{0,0}` sentinel is the `getD` default). -/
def PATTERN_PULSE : List ThermalStep := [(2000, 100), (2000, 40), (2000, 100), (2000, 40)]

/-- Model of `PATTERN_WAVE`. -/
def PATTERN_WAVE : List ThermalStep :=
  [(1000, 20), (1000, 40), (1000, 60), (1000, 80), (1000, 100),
   (1000, 80), (1000, 60), (1000, 40), (1000, 20)]

/-- Model of `PATTERN_BURST`. -/
def PATTERN_BURST : List ThermalStep :=
  [(500, 100), (500, 90), (500, 70), (1000, 50), (1500, 30), (1000, 10)]

/-- The `PATTERNS[]` table of `thermal_feature.c` (`none` = NULL). -/
def THERMAL_PATTERNS : ℕ → Option (List ThermalStep)
  | 2 => some PATTERN_PULSE
  | 3 => some PATTERN_WAVE
  | 4 => some PATTERN_BURST
  | _ => none

/-- The module-level `static` state `m_thermal`. -/
structure MThermal where
  state : ThermalStateTag
  fault : ThermalFault
  pattern : ℕ
  target_intensity : ℕ
  current_duty : ℕ
  base_intensity : ℕ
  start_ms : ℕ
  end_ms : ℕ
  ramp_start_ms : ℕ
  last_temp_check_ms : ℕ
  cooldown_end_ms : ℕ
  pattern_steps : Option (List ThermalStep)
  step_index : ℕ
  step_start_ms : ℕ
  pattern_looping : Bool
  skin_temp_c : ℤ
  prev_temp_c : ℤ
  prev_temp_ms : ℕ
deriving DecidableEq, Repr

/-- Model of `thermal_feature_init` (memset to zero, then state OFF and skin 25 °C). -/
def thermal_feature_init : MThermal :=
  { state := THERMAL_STATE_OFF, fault := THERMAL_FAULT_NONE, pattern := 0,
    target_intensity := 0, current_duty := 0, base_intensity := 0,
    start_ms := 0, end_ms := 0, ramp_start_ms := 0, last_temp_check_ms := 0,
    cooldown_end_ms := 0, pattern_steps := none, step_index := 0,
    step_start_ms := 0, pattern_looping := false,
    skin_temp_c := 25, prev_temp_c := 0, prev_temp_ms := 0 }

/-- Model of `check_temperature_safe` (sets the fault code on failure). -/
def check_temperature_safe (m : MThermal) : Bool × MThermal :=
  if m.skin_temp_c ≥ THERMAL_MAX_SKIN_TEMP_C then
    (false, { m with fault := THERMAL_FAULT_OVER_TEMP })
  else (true, m)

/-- Model of `check_runaway`. -/
def check_runaway (m : MThermal) (now_ms : ℕ) : Bool × MThermal :=
  if m.prev_temp_ms = 0 then
    (true, { m with prev_temp_c := m.skin_temp_c, prev_temp_ms := now_ms })
  else
    let dt_ms := wsub now_ms m.prev_temp_ms
    if dt_ms ≥ 1000 then
      let delta_t := m.skin_temp_c - m.prev_temp_c
      if delta_t > RUNAWAY_RATE_C_PER_S then
        (false, { m with fault := THERMAL_FAULT_RUNAWAY })
      else
        (true, { m with prev_temp_c := m.skin_temp_c, prev_temp_ms := now_ms })
    else (true, m)

/-- Model of `enter_fault`. -/
def enter_fault (m : MThermal) (fault : ThermalFault) : MThermal :=
  { m with fault := fault, state := THERMAL_STATE_FAULT, current_duty := 0 }

/-- Model of `calculate_ramp_duty`. -/
def calculate_ramp_duty (m : MThermal) (now_ms : ℕ) : ℕ :=
  let elapsed := wsub now_ms m.ramp_start_ms
  if elapsed ≥ THERMAL_RAMP_TIME_MS then m.target_intensity
  else (m.target_intensity * elapsed) / THERMAL_RAMP_TIME_MS

/-- Model of `thermal_feature_stop`.  Note the `/* Approximate */` line of the C
source: the "current time" used to compute the cooldown deadline is the
session START time `m_thermal.start_ms`, because `stop()` has no clock
argument. -/
def thermal_feature_stop (m : MThermal) : MThermal :=
  let now_ms := m.start_ms
  let m1 := { m with target_intensity := 0, current_duty := 0, pattern_steps := none }
  if m1.state = THERMAL_STATE_ACTIVE ∨ m1.state = THERMAL_STATE_RAMPING then
    { m1 with state := THERMAL_STATE_COOLDOWN,
              cooldown_end_ms := wadd now_ms (THERMAL_COOLDOWN_S * 1000) }
  else
    { m1 with state := THERMAL_STATE_OFF }

/-- Model of `thermal_feature_set_timed`. -/
def thermal_feature_set_timed (m : MThermal) (intensity_pct duration_s : ℕ) : MThermal :=
  if intensity_pct = 0 then thermal_feature_stop m
  else if m.state = THERMAL_STATE_COOLDOWN then m
  else if m.state = THERMAL_STATE_FAULT then m
  else
    let intensity := if intensity_pct > THERMAL_MAX_INTENSITY_PCT
                     then THERMAL_MAX_INTENSITY_PCT else intensity_pct
    let duration := if duration_s = 0 ∨ duration_s > THERMAL_MAX_DURATION_S
                    then THERMAL_MAX_DURATION_S else duration_s
    let chk := check_temperature_safe m
    if ¬ chk.1 then enter_fault chk.2 THERMAL_FAULT_OVER_TEMP
    else
      { chk.2 with target_intensity := intensity, base_intensity := intensity,
                   pattern := 1, pattern_steps := none,
                   start_ms := 0, ramp_start_ms := 0,
                   end_ms := duration * 1000,
                   state := THERMAL_STATE_RAMPING, current_duty := 0 }

/-- Model of `thermal_feature_set`. -/
def thermal_feature_set (m : MThermal) (intensity_pct : ℕ) : MThermal :=
  thermal_feature_set_timed m intensity_pct 0

/-- Model of `thermal_feature_play`. -/
def thermal_feature_play (m : MThermal) (pattern intensity_pct duration_s : ℕ) : MThermal :=
  if pattern ≥ 5 ∨ pattern = 0 then thermal_feature_stop m
  else if pattern = 1 then thermal_feature_set_timed m intensity_pct duration_s
  else
    let m1 := thermal_feature_set_timed m intensity_pct duration_s
    { m1 with pattern := pattern, pattern_steps := THERMAL_PATTERNS pattern,
              step_index := 0, step_start_ms := 0, pattern_looping := true }

/-- Model of `process_pattern`. -/
def process_pattern (m : MThermal) (now_ms : ℕ) : MThermal :=
  match m.pattern_steps with
  | none => m
  | some steps =>
    let m := if m.step_start_ms = 0 then { m with step_start_ms := now_ms } else m
    let step := steps.getD m.step_index (0, 0)
    let elapsed := wsub now_ms m.step_start_ms
    if elapsed ≥ step.1 then
      let m := { m with step_index := m.step_index + 1, step_start_ms := now_ms }
      let next := steps.getD m.step_index (0, 0)
      if next.1 = 0 ∧ next.2 = 0 then
        if m.pattern_looping then
          let m := { m with step_index := 0 }
          let next0 := steps.getD 0 (0, 0)
          { m with target_intensity := (next0.2 * m.base_intensity) / 100 }
        else
          thermal_feature_stop m
      else
        { m with target_intensity := (next.2 * m.base_intensity) / 100 }
    else m

/-- Model of `thermal_feature_tick`. -/
def thermal_feature_tick (m : MThermal) (now_ms : ℕ) : MThermal :=
  let m := if m.state = THERMAL_STATE_RAMPING ∧ m.start_ms = 0 then
             { m with start_ms := now_ms, ramp_start_ms := now_ms,
                      end_ms := wadd now_ms m.end_ms }
           else m
  match m.state with
  | THERMAL_STATE_OFF => m
  | THERMAL_STATE_RAMPING =>
    let m := { m with current_duty := calculate_ramp_duty m now_ms }
    let m := if now_ms ≥ wadd m.ramp_start_ms THERMAL_RAMP_TIME_MS
             then { m with state := THERMAL_STATE_ACTIVE } else m
    let c1 := check_temperature_safe m
    if ¬ c1.1 then enter_fault c1.2 c1.2.fault
    else
      let c2 := check_runaway c1.2 now_ms
      if ¬ c2.1 then enter_fault c2.2 c2.2.fault else c2.2
  | THERMAL_STATE_ACTIVE =>
    let m := process_pattern m now_ms
    let m := { m with current_duty := m.target_intensity }
    if now_ms ≥ m.end_ms then
      thermal_feature_stop { m with fault := THERMAL_FAULT_TIMEOUT }
    else if wsub now_ms m.last_temp_check_ms ≥ TEMP_CHECK_INTERVAL_MS then
      let m := { m with last_temp_check_ms := now_ms }
      let c1 := check_temperature_safe m
      if ¬ c1.1 then enter_fault c1.2 c1.2.fault
      else
        let c2 := check_runaway c1.2 now_ms
        if ¬ c2.1 then enter_fault c2.2 c2.2.fault else c2.2
    else m
  | THERMAL_STATE_COOLDOWN =>
    if now_ms ≥ m.cooldown_end_ms then { m with state := THERMAL_STATE_OFF } else m
  | THERMAL_STATE_FAULT => m

/-- Model of `thermal_feature_update_skin_temp`. -/
def thermal_feature_update_skin_temp (m : MThermal) (temp_c : ℤ) : MThermal :=
  { m with skin_temp_c := temp_c }

/-- Model of `thermal_feature_clear_fault`. -/
def thermal_feature_clear_fault (m : MThermal) : MThermal :=
  if m.state = THERMAL_STATE_FAULT then
    if m.skin_temp_c < THERMAL_MAX_SKIN_TEMP_C - 5 then
      { m with fault := THERMAL_FAULT_NONE, state := THERMAL_STATE_OFF, prev_temp_ms := 0 }
    else m
  else m

/-! ## Signature feel player (`signature_feel.h` / `signature_feel.c`)

`ease_calculate` calls `cosf`/`sinf`.  These are modelled by an explicit
`TrigModel` parameter: `cosHalfPi t` stands for `cosf((t*π)/2)`,
`sinHalfPi t` for `sinf((t*π)/2)` and `cosPi t` for `cosf(π*t)`.  Theorems
assume only `TrigModel.InRange`, the range facts the C library functions
satisfy on arguments built from `t ∈ [0,1]`. -/

def SIG_RAMP_DOWN_MS : ℕ := 600
def SIG_VIB_MAX_INTENSITY : ℕ := 65
def SIG_VIB_GENTLE : ℕ := 35
def SIG_VIB_MEDIUM : ℕ := 50
def SIG_THERMAL_MAX : ℕ := 70
def SIG_THERMAL_GENTLE : ℕ := 40
def SIG_THERMAL_MEDIUM : ℕ := 55

/-- Models of the trig library calls appearing in `ease_calculate`. -/
structure TrigModel where
  cosHalfPi : ℚ → ℚ
  sinHalfPi : ℚ → ℚ
  cosPi : ℚ → ℚ

/-- The range facts `cosf`/`sinf` guarantee for the arguments
`ease_calculate` uses: for `t ∈ [0,1]`, `cos(tπ/2) ∈ [0,1]`,
`sin(tπ/2) ∈ [0,1]`, `cos(tπ) ∈ [-1,1]`. -/
def TrigModel.InRange (tm : TrigModel) : Prop :=
  ∀ t : ℚ, 0 ≤ t → t ≤ 1 →
    (0 ≤ tm.cosHalfPi t ∧ tm.cosHalfPi t ≤ 1) ∧
    (0 ≤ tm.sinHalfPi t ∧ tm.sinHalfPi t ≤ 1) ∧
    (-1 ≤ tm.cosPi t ∧ tm.cosPi t ≤ 1)

/-- Model of `ease_curve_t`. -/
inductive EaseCurve where
  | EASE_LINEAR
  | EASE_IN_SINE
  | EASE_OUT_SINE
  | EASE_IN_OUT_SINE
  | EASE_OUT_QUAD
  | EASE_IN_QUAD
  | EASE_BREATH
deriving DecidableEq, Repr

export EaseCurve (EASE_LINEAR EASE_IN_SINE EASE_OUT_SINE EASE_IN_OUT_SINE
  EASE_OUT_QUAD EASE_IN_QUAD EASE_BREATH)

/-- Model of `ease_calculate`. -/
def ease_calculate (tm : TrigModel) (curve : EaseCurve) (t : ℚ) : ℚ :=
  if t ≤ 0 then 0
  else if t ≥ 1 then 1
  else
    match curve with
    | EASE_LINEAR => t
    | EASE_IN_SINE => 1 - tm.cosHalfPi t
    | EASE_OUT_SINE => tm.sinHalfPi t
    | EASE_IN_OUT_SINE => -(tm.cosPi t - 1) / 2
    | EASE_OUT_QUAD => 1 - (1 - t) * (1 - t)
    | EASE_IN_QUAD => t * t
    | EASE_BREATH =>
      if t < 2/5 then
        let inhale_t := (t / (2/5))
        (-(tm.cosPi inhale_t - 1) / 2)
      else
        let exhale_t := (t - 2/5) / (3/5)
        1 - exhale_t * exhale_t

/-- Model of `ease_intensity` (the final cast `(uint8_t)(result + 0.5f)` is a
round-half-up of a value already clamped to `[0,100]`). -/
def ease_intensity (tm : TrigModel) (vfrom vto : ℕ) (curve : EaseCurve) (t : ℚ) : ℕ :=
  let eased := ease_calculate tm curve t
  let result : ℚ := (vfrom : ℚ) + ((vto : ℚ) - (vfrom : ℚ)) * eased
  if result < 0 then 0
  else if result > 100 then 100
  else (⌊result + 1/2⌋).toNat

/-- Model of `sig_step_t`. -/
structure SigStep where
  duration_ms : ℕ
  target_intensity : ℕ
  ease : EaseCurve
  is_vibration : Bool
deriving DecidableEq, Repr

/-- The `{0,0,0,false}` end sentinel (used as the out-of-list default). -/
def SIG_STEP_END : SigStep := ⟨0, 0, EASE_LINEAR, false⟩

def PATTERN_GROUNDING_PULSE : List SigStep :=
  [⟨300, SIG_VIB_GENTLE, EASE_IN_SINE, true⟩,
   ⟨150, SIG_VIB_GENTLE, EASE_LINEAR, true⟩,
   ⟨450, 0, EASE_OUT_SINE, true⟩]

def PATTERN_ATTENTION_TAP : List SigStep :=
  [⟨200, SIG_VIB_GENTLE, EASE_IN_OUT_SINE, true⟩,
   ⟨100, SIG_VIB_GENTLE, EASE_LINEAR, true⟩,
   ⟨200, 0, EASE_OUT_SINE, true⟩,
   ⟨200, 0, EASE_LINEAR, true⟩,
   ⟨200, SIG_VIB_GENTLE, EASE_IN_OUT_SINE, true⟩,
   ⟨100, SIG_VIB_GENTLE, EASE_LINEAR, true⟩,
   ⟨300, 0, EASE_OUT_SINE, true⟩]

def PATTERN_PRESENCE_CHECK : List SigStep :=
  [⟨150, 25, EASE_IN_OUT_SINE, true⟩, ⟨150, 0, EASE_OUT_SINE, true⟩,
   ⟨120, 0, EASE_LINEAR, true⟩,
   ⟨150, 25, EASE_IN_OUT_SINE, true⟩, ⟨150, 0, EASE_OUT_SINE, true⟩,
   ⟨120, 0, EASE_LINEAR, true⟩,
   ⟨150, 25, EASE_IN_OUT_SINE, true⟩, ⟨250, 0, EASE_OUT_SINE, true⟩]

def PATTERN_HEARTBEAT : List SigStep :=
  [⟨120, SIG_VIB_MEDIUM, EASE_IN_SINE, true⟩, ⟨80, SIG_VIB_MEDIUM, EASE_LINEAR, true⟩,
   ⟨100, 15, EASE_OUT_QUAD, true⟩,
   ⟨100, SIG_VIB_GENTLE, EASE_IN_SINE, true⟩, ⟨80, SIG_VIB_GENTLE, EASE_LINEAR, true⟩,
   ⟨120, 0, EASE_OUT_SINE, true⟩, ⟨400, 0, EASE_LINEAR, true⟩,
   ⟨120, SIG_VIB_MEDIUM, EASE_IN_SINE, true⟩, ⟨80, SIG_VIB_MEDIUM, EASE_LINEAR, true⟩,
   ⟨100, 15, EASE_OUT_QUAD, true⟩,
   ⟨100, SIG_VIB_GENTLE, EASE_IN_SINE, true⟩, ⟨80, SIG_VIB_GENTLE, EASE_LINEAR, true⟩,
   ⟨120, 0, EASE_OUT_SINE, true⟩, ⟨400, 0, EASE_LINEAR, true⟩,
   ⟨120, SIG_VIB_MEDIUM, EASE_IN_SINE, true⟩, ⟨80, SIG_VIB_MEDIUM, EASE_LINEAR, true⟩,
   ⟨100, 15, EASE_OUT_QUAD, true⟩,
   ⟨100, SIG_VIB_GENTLE, EASE_IN_SINE, true⟩, ⟨80, SIG_VIB_GENTLE, EASE_LINEAR, true⟩,
   ⟨200, 0, EASE_OUT_SINE, true⟩]

def PATTERN_BREATHING_GUIDE : List SigStep :=
  [⟨4000, SIG_VIB_GENTLE, EASE_IN_OUT_SINE, true⟩,
   ⟨300, SIG_VIB_GENTLE, EASE_LINEAR, true⟩,
   ⟨6000, 8, EASE_OUT_QUAD, true⟩,
   ⟨500, 5, EASE_LINEAR, true⟩]

def PATTERN_WARM_EXHALE : List SigStep :=
  [⟨2000, SIG_THERMAL_GENTLE, EASE_IN_SINE, false⟩,
   ⟨3000, SIG_THERMAL_GENTLE, EASE_LINEAR, false⟩,
   ⟨4000, 15, EASE_OUT_SINE, false⟩,
   ⟨2000, 0, EASE_OUT_QUAD, false⟩]

def PATTERN_GROUNDING_WARMTH : List SigStep :=
  [⟨1500, SIG_THERMAL_GENTLE, EASE_IN_OUT_SINE, false⟩,
   ⟨5000, SIG_THERMAL_GENTLE, EASE_LINEAR, false⟩,
   ⟨3000, 0, EASE_OUT_SINE, false⟩]

def PATTERN_SAFETY_EMBRACE : List SigStep :=
  [⟨2000, SIG_THERMAL_MEDIUM, EASE_IN_SINE, false⟩,
   ⟨2500, SIG_THERMAL_MEDIUM, EASE_LINEAR, false⟩,
   ⟨1500, SIG_THERMAL_GENTLE, EASE_IN_OUT_SINE, false⟩,
   ⟨1500, SIG_THERMAL_MEDIUM, EASE_IN_OUT_SINE, false⟩,
   ⟨2000, SIG_THERMAL_GENTLE, EASE_IN_OUT_SINE, false⟩,
   ⟨4000, 0, EASE_OUT_QUAD, false⟩]

def PATTERN_GENTLE_ALERT : List SigStep :=
  [⟨500, SIG_THERMAL_GENTLE, EASE_IN_SINE, false⟩,
   ⟨250, SIG_VIB_GENTLE, EASE_IN_OUT_SINE, true⟩,
   ⟨350, 0, EASE_OUT_SINE, true⟩,
   ⟨1000, SIG_THERMAL_GENTLE, EASE_LINEAR, false⟩,
   ⟨1500, 0, EASE_OUT_SINE, false⟩]

def PATTERN_FULL_RESET : List SigStep :=
  [⟨1500, SIG_THERMAL_MEDIUM, EASE_IN_SINE, false⟩,
   ⟨120, SIG_VIB_MEDIUM, EASE_IN_SINE, true⟩, ⟨80, SIG_VIB_MEDIUM, EASE_LINEAR, true⟩,
   ⟨100, 15, EASE_OUT_QUAD, true⟩,
   ⟨100, SIG_VIB_GENTLE, EASE_IN_SINE, true⟩, ⟨80, SIG_VIB_GENTLE, EASE_LINEAR, true⟩,
   ⟨120, 0, EASE_OUT_SINE, true⟩,
   ⟨500, SIG_THERMAL_MEDIUM, EASE_LINEAR, false⟩,
   ⟨120, SIG_VIB_MEDIUM, EASE_IN_SINE, true⟩, ⟨80, SIG_VIB_MEDIUM, EASE_LINEAR, true⟩,
   ⟨100, 15, EASE_OUT_QUAD, true⟩,
   ⟨100, SIG_VIB_GENTLE, EASE_IN_SINE, true⟩, ⟨80, SIG_VIB_GENTLE, EASE_LINEAR, true⟩,
   ⟨120, 0, EASE_OUT_SINE, true⟩,
   ⟨2000, SIG_THERMAL_GENTLE, EASE_OUT_SINE, false⟩,
   ⟨4000, SIG_VIB_GENTLE, EASE_IN_OUT_SINE, true⟩,
   ⟨6000, 8, EASE_OUT_QUAD, true⟩,
   ⟨2000, 0, EASE_OUT_SINE, false⟩,
   ⟨500, 0, EASE_LINEAR, true⟩]

/-- Model of `signature_pattern_t`. -/
inductive SigPattern where
  | SIG_PATTERN_NONE
  | SIG_GROUNDING_PULSE
  | SIG_ATTENTION_TAP
  | SIG_PRESENCE_CHECK
  | SIG_HEARTBEAT
  | SIG_BREATHING_GUIDE
  | SIG_WARM_EXHALE
  | SIG_GROUNDING_WARMTH
  | SIG_SAFETY_EMBRACE
  | SIG_GENTLE_ALERT
  | SIG_FULL_RESET
deriving DecidableEq, Repr

export SigPattern (SIG_PATTERN_NONE SIG_GROUNDING_PULSE SIG_ATTENTION_TAP
  SIG_PRESENCE_CHECK SIG_HEARTBEAT SIG_BREATHING_GUIDE SIG_WARM_EXHALE
  SIG_GROUNDING_WARMTH SIG_SAFETY_EMBRACE SIG_GENTLE_ALERT SIG_FULL_RESET)

/-- The `PATTERNS[]` table of `signature_feel.c` (NULL = `[]`). -/
def SIG_PATTERNS : SigPattern → List SigStep
  | SIG_PATTERN_NONE => []
  | SIG_GROUNDING_PULSE => PATTERN_GROUNDING_PULSE
  | SIG_ATTENTION_TAP => PATTERN_ATTENTION_TAP
  | SIG_PRESENCE_CHECK => PATTERN_PRESENCE_CHECK
  | SIG_HEARTBEAT => PATTERN_HEARTBEAT
  | SIG_BREATHING_GUIDE => PATTERN_BREATHING_GUIDE
  | SIG_WARM_EXHALE => PATTERN_WARM_EXHALE
  | SIG_GROUNDING_WARMTH => PATTERN_GROUNDING_WARMTH
  | SIG_SAFETY_EMBRACE => PATTERN_SAFETY_EMBRACE
  | SIG_GENTLE_ALERT => PATTERN_GENTLE_ALERT
  | SIG_FULL_RESET => PATTERN_FULL_RESET

/-- The `PATTERN_LOOPS[]` table. -/
def SIG_PATTERN_LOOPS : SigPattern → Bool
  | SIG_BREATHING_GUIDE => true
  | _ => false

/-- Model of `signature_safe_vibration`. -/
def signature_safe_vibration (requested : ℕ) : ℕ :=
  if requested > SIG_VIB_MAX_INTENSITY then SIG_VIB_MAX_INTENSITY else requested

/-- Model of `signature_safe_thermal`. -/
def signature_safe_thermal (requested : ℕ) : ℕ :=
  if requested > SIG_THERMAL_MAX then SIG_THERMAL_MAX else requested

/-- The module-level `static` state `s_sig`. -/
structure SigState where
  current_pattern : SigPattern
  steps : List SigStep
  step_index : ℕ
  intensity_scale : ℕ
  step_start_ms : ℕ
  step_from_intensity : ℕ
  vib_output : ℕ
  thermal_output : ℕ
  fading_out : Bool
  fade_start_ms : ℕ
  fade_from_vib : ℕ
  fade_from_thermal : ℕ
  inited : Bool
deriving DecidableEq, Repr

/-- Model of `set_vibration` (only the tracked output matters for the model; the
call into `vibration_feature_on/off` passes the same value). -/
def set_vibration (s : SigState) (intensity : ℕ) : SigState :=
  if intensity ≠ s.vib_output then { s with vib_output := intensity } else s

/-- Model of `set_thermal`. -/
def set_thermal (s : SigState) (intensity : ℕ) : SigState :=
  if intensity ≠ s.thermal_output then { s with thermal_output := intensity } else s

/-- Model of `signature_init`. -/
def signature_init : SigState :=
  { current_pattern := SIG_PATTERN_NONE, steps := [], step_index := 0,
    intensity_scale := 0, step_start_ms := 0, step_from_intensity := 0,
    vib_output := 0, thermal_output := 0, fading_out := false,
    fade_start_ms := 0, fade_from_vib := 0, fade_from_thermal := 0,
    inited := true }

/-- Model of `signature_stop`. -/
def signature_stop (s : SigState) : SigState :=
  if s.current_pattern = SIG_PATTERN_NONE then s
  else
    { s with fading_out := true, fade_start_ms := 0,
             fade_from_vib := s.vib_output, fade_from_thermal := s.thermal_output }

/-- Model of `signature_stop_immediate`. -/
def signature_stop_immediate (s : SigState) : SigState :=
  let s := set_vibration s 0
  let s := set_thermal s 0
  { s with current_pattern := SIG_PATTERN_NONE, steps := [], fading_out := false }

/-- Model of `signature_play`. -/
def signature_play (s : SigState) (pattern : SigPattern) (intensity_scale : ℕ) :
    SigState :=
  let s := if ¬ s.inited then signature_init else s
  if pattern = SIG_PATTERN_NONE then signature_stop s
  else if SIG_PATTERNS pattern = [] then s
  else
    let s := set_vibration s 0
    let s := set_thermal s 0
    { s with current_pattern := pattern, steps := SIG_PATTERNS pattern,
             step_index := 0,
             intensity_scale := if intensity_scale > 100 then 100 else intensity_scale,
             step_start_ms := 0, step_from_intensity := 0, fading_out := false }

/-- The fade-out branch of `signature_tick` (run on the state whose
`fade_start_ms` has already been initialized). -/
def signature_fade_tick (tm : TrigModel) (s : SigState) (now_ms : ℕ) : SigState :=
  let elapsed := wsub now_ms s.fade_start_ms
  let t : ℚ := (elapsed : ℚ) / (SIG_RAMP_DOWN_MS : ℚ)
  if t ≥ 1 then signature_stop_immediate s
  else
    let s1 := set_vibration s (ease_intensity tm s.fade_from_vib 0 EASE_OUT_SINE t)
    set_thermal s1 (ease_intensity tm s.fade_from_thermal 0 EASE_OUT_SINE t)

/-- The per-step target intensity of `signature_tick`: the step target
scaled by the play-time intensity scale, then clamped through the channel
hard ceiling. -/
def sig_step_target (step : SigStep) (scale : ℕ) : ℕ :=
  let target0 := (step.target_intensity * scale) / 100
  if step.is_vibration then signature_safe_vibration target0
  else signature_safe_thermal target0

/-- The step-completion block of `signature_tick`: advance the cursor,
carry the just-reached target as the new "from" intensity, and loop or
gracefully stop at the end sentinel. -/
def sig_step_advance (s : SigState) (target : ℕ) (now_ms : ℕ) : SigState :=
  let s3 := { s with step_index := s.step_index + 1, step_start_ms := now_ms,
                     step_from_intensity := target }
  let next := s3.steps.getD s3.step_index SIG_STEP_END
  if next.duration_ms = 0 then
    if SIG_PATTERN_LOOPS s3.current_pattern then { s3 with step_index := 0 }
    else signature_stop s3
  else s3

/-- The pattern-playback branch of `signature_tick` (run on the state whose
`step_start_ms` has already been initialized). -/
def signature_step_tick (tm : TrigModel) (s : SigState) (now_ms : ℕ) : SigState :=
  let step := s.steps.getD s.step_index SIG_STEP_END
  let elapsed := wsub now_ms s.step_start_ms
  let t0 : ℚ := if step.duration_ms > 0 then (elapsed : ℚ) / (step.duration_ms : ℚ) else 1
  let t := if t0 > 1 then 1 else t0
  let target := sig_step_target step s.intensity_scale
  let current := ease_intensity tm s.step_from_intensity target step.ease t
  let s2 := if step.is_vibration then set_vibration s current else set_thermal s current
  if elapsed ≥ step.duration_ms then sig_step_advance s2 target now_ms else s2

/-- Model of `signature_tick`. -/
def signature_tick (tm : TrigModel) (s : SigState) (now_ms : ℕ) : SigState :=
  if ¬ s.inited then s
  else if s.fading_out then
    signature_fade_tick tm
      (if s.fade_start_ms = 0 then { s with fade_start_ms := now_ms } else s) now_ms
  else if s.current_pattern = SIG_PATTERN_NONE ∨ s.steps = [] then s
  else
    signature_step_tick tm
      (if s.step_start_ms = 0
       then { s with step_start_ms := now_ms, step_from_intensity := 0 } else s) now_ms

/-- The externally visible operations of the signature player. -/
inductive SigEvent where
  | evPlay (pattern : SigPattern) (scale : ℕ)
  | evTick (now_ms : ℕ)
  | evStop
  | evStopNow
deriving DecidableEq, Repr

/-- Run one signature-player operation. -/
def sigStepEvent (tm : TrigModel) (s : SigState) : SigEvent → SigState
  | SigEvent.evPlay p sc => signature_play s p sc
  | SigEvent.evTick now => signature_tick tm s now
  | SigEvent.evStop => signature_stop s
  | SigEvent.evStopNow => signature_stop_immediate s

/-- Run a sequence of operations starting from `signature_init`. -/
def runSig (tm : TrigModel) (evs : List SigEvent) : SigState :=
  evs.foldl (sigStepEvent tm) signature_init

/-! ## Cue-engine operation sequences (for engine-level invariants) -/

/-- The externally visible operations of the cue engine. -/
inductive CueEvent where
  | evInit
  | evSetPrefs (p : CuePrefs)
  | evSetHour (hour : ℕ)
  | evGenerate (input : CueInput)
  | evReset
deriving DecidableEq, Repr

/-- The zero-initialized `static` state before `cue_processor_init` runs. -/
def zeroCueState : CueState :=
  { prefs := { enabled := false, max_thermal_pct := 0, max_vib_pct := 0,
               quiet_start_hour := 0, quiet_end_hour := 0, sensitivity := 0,
               breathing_enabled := false, thermal_enabled := false,
               vibration_enabled := false },
    last_cue_ms := 0, last_cue_type := CUE_TYPE_NONE, current_hour := 0,
    hour_start_ms := 0, cues_this_hour := 0, consecutive_low_conf := 0,
    coherence_history := List.replicate CUE_HISTORY_SIZE 0,
    history_idx := 0, history_count := 0,
    total_generated := 0, total_suppressed := 0, inited := false }

/-- Run one cue-engine operation. -/
def cueStepEvent (s : CueState) : CueEvent → CueState
  | CueEvent.evInit => cue_processor_init
  | CueEvent.evSetPrefs p => cue_processor_set_preferences s p
  | CueEvent.evSetHour hour => cue_processor_set_hour s hour
  | CueEvent.evGenerate input => (cue_processor_generate s input).2.2
  | CueEvent.evReset => cue_processor_reset s

/-- Run a sequence of cue-engine operations from the zeroed state. -/
def runCue (evs : List CueEvent) : CueState :=
  evs.foldl cueStepEvent zeroCueState

/-! ## Shared helper lemmas -/

theorem clamp_intensity_le (v m : ℕ) : clamp_intensity v m ≤ m := by
  unfold clamp_intensity
  split <;> omega

/-! ## Claims -/

/-- C1 (code bug).  The spec demands a mandatory 30-second minimum
cooldown measured from the moment `thermal_feature_stop()` is called,
regardless of how long the session has been running.  The code computes the
cooldown deadline from the session START time (`m_thermal.start_ms`, the
`/* Approximate */` line), so a session that has already run longer than
30 s gets essentially no cooldown.  Witnessed trace: a session started at
t=1000 (first tick) runs until at least t=40000; `stop()` is then called
(so the stop moment is ≥ 40000), yet the very next tick at t=40001 — just
1 ms later, far less than the 30000 ms the claim requires — already moves
the state from Cooldown to Off, because the deadline was 1000+30000=31000. -/
theorem c1_cooldown_from_session_start_not_stop :
    (thermal_feature_tick (thermal_feature_tick (thermal_feature_tick
        (thermal_feature_set_timed thermal_feature_init 50 60) 1000) 3000) 40000).state
      = THERMAL_STATE_ACTIVE ∧
    (thermal_feature_stop (thermal_feature_tick (thermal_feature_tick (thermal_feature_tick
        (thermal_feature_set_timed thermal_feature_init 50 60) 1000) 3000) 40000)).state
      = THERMAL_STATE_COOLDOWN ∧
    (thermal_feature_stop (thermal_feature_tick (thermal_feature_tick (thermal_feature_tick
        (thermal_feature_set_timed thermal_feature_init 50 60) 1000) 3000) 40000)).cooldown_end_ms
      = 31000 ∧
    (thermal_feature_tick (thermal_feature_stop (thermal_feature_tick (thermal_feature_tick
        (thermal_feature_tick (thermal_feature_set_timed thermal_feature_init 50 60) 1000)
        3000) 40000)) 40001).state = THERMAL_STATE_OFF ∧
    40001 < 40000 + THERMAL_COOLDOWN_S * 1000 := by
  decide

/-- Preferences used by the C2 counterexample: defaults except
`max_vib_pct = 10`. -/
def c2_prefs : CuePrefs :=
  { enabled := true, max_thermal_pct := 80, max_vib_pct := 10,
    quiet_start_hour := 22, quiet_end_hour := 7, sensitivity := 1,
    breathing_enabled := true, thermal_enabled := true, vibration_enabled := true }

/-- A low-confidence input at time `t` (everything else benign). -/
def c2_input (t : ℕ) : CueInput :=
  { timestamp_ms := t, micro_var_pct100 := 0, coherence_pct := 80,
    stability_pct := 100, confidence_pct := 30, stress_level := 0,
    artifact_rate_pct := 0 }

/-- C2, counterexample.  With `max_vib_pct = 10`, three consecutive
low-confidence inputs make the engine emit a CheckFit cue whose
`vib_intensity` is the fixed literal 20 — exceeding the configured maximum,
so the user maxima are NOT the final authority for the CheckFit cue. -/
theorem c2_checkfit_exceeds_max_vib :
    (cue_processor_generate (cue_processor_generate (cue_processor_generate
        (cue_processor_set_preferences cue_processor_init c2_prefs)
        (c2_input 1000)).2.2 (c2_input 2000)).2.2 (c2_input 3000)).1 = true ∧
    (cue_processor_generate (cue_processor_generate (cue_processor_generate
        (cue_processor_set_preferences cue_processor_init c2_prefs)
        (c2_input 1000)).2.2 (c2_input 2000)).2.2 (c2_input 3000)).2.1.type
      = CUE_TYPE_CHECK_FIT ∧
    (cue_processor_generate (cue_processor_generate (cue_processor_generate
        (cue_processor_set_preferences cue_processor_init c2_prefs)
        (c2_input 1000)).2.2 (c2_input 2000)).2.2 (c2_input 3000)).2.1.vib_intensity
      = 20 ∧
    c2_prefs.max_vib_pct = 10 ∧ ¬ (20 ≤ 10) := by
  decide

theorem update_history_prefs (s : CueState) (c : ℕ) :
    (update_history s c).prefs = s.prefs := rfl

theorem check_rate_limit_prefs (s : CueState) (now_ms : ℕ) :
    (check_rate_limit s now_ms).2.prefs = s.prefs := by
  unfold check_rate_limit
  dsimp only
  split <;> rfl

/-- Bounds delivered by the decision cascade: user maxima cap both channels
(the CheckFit cue is not produced here). -/
theorem cue_decision_cascade_out_bounds
    (s2 : CueState) (input : CueInput) (now_ms : ℕ) (out : CueOutput) (s3 : CueState)
    (h : cue_decision_cascade s2 input now_ms = (true, out, s3)) :
    out.thermal_intensity ≤ s2.prefs.max_thermal_pct ∧
    (out.type ≠ CUE_TYPE_CHECK_FIT → out.vib_intensity ≤ s2.prefs.max_vib_pct) ∧
    (out.type = CUE_TYPE_CHECK_FIT → out.vib_intensity = 20) := by
  unfold cue_decision_cascade at h
  split at h
  · obtain ⟨h1, h2⟩ := Prod.mk.injEq .. ▸ h
    obtain ⟨h2, h3⟩ := Prod.mk.injEq .. ▸ h2
    subst h2
    refine ⟨clamp_intensity_le _ _, fun _ => clamp_intensity_le _ _, fun hc => ?_⟩
    simp [build_alert_cue] at hc
  · split at h
    · obtain ⟨h1, h2⟩ := Prod.mk.injEq .. ▸ h
      obtain ⟨h2, h3⟩ := Prod.mk.injEq .. ▸ h2
      subst h2
      refine ⟨clamp_intensity_le _ _, fun _ => clamp_intensity_le _ _, fun hc => ?_⟩
      simp [build_combined_cue] at hc
    · split at h
      · obtain ⟨h1, h2⟩ := Prod.mk.injEq .. ▸ h
        obtain ⟨h2, h3⟩ := Prod.mk.injEq .. ▸ h2
        subst h2
        refine ⟨Nat.zero_le _, fun _ => clamp_intensity_le _ _, fun hc => ?_⟩
        simp [build_breathing_cue] at hc
      · split at h
        · obtain ⟨h1, h2⟩ := Prod.mk.injEq .. ▸ h
          obtain ⟨h2, h3⟩ := Prod.mk.injEq .. ▸ h2
          subst h2
          refine ⟨Nat.zero_le _, fun _ => clamp_intensity_le _ _, fun hc => ?_⟩
          simp [build_vibration_cue] at hc
        · split at h
          · obtain ⟨h1, h2⟩ := Prod.mk.injEq .. ▸ h
            obtain ⟨h2, h3⟩ := Prod.mk.injEq .. ▸ h2
            subst h2
            refine ⟨clamp_intensity_le _ _, fun _ => Nat.zero_le _, fun hc => ?_⟩
            simp [build_thermal_cue] at hc
          · split at h
            · obtain ⟨h1, h2⟩ := Prod.mk.injEq .. ▸ h
              obtain ⟨h2, h3⟩ := Prod.mk.injEq .. ▸ h2
              subst h2
              refine ⟨clamp_intensity_le _ _, fun _ => Nat.zero_le _, fun hc => ?_⟩
              simp [build_preventive_cue] at hc
            · exact absurd (congrArg Prod.fst h) (by simp)

/-- Bounds delivered by the confidence gate (this is where CheckFit, with
its unclamped `vib_intensity = 20`, originates). -/
theorem cue_confidence_gate_out_bounds
    (s1 : CueState) (input : CueInput) (now_ms : ℕ) (out : CueOutput) (s3 : CueState)
    (h : cue_confidence_gate s1 input now_ms = (true, out, s3)) :
    out.thermal_intensity ≤ s1.prefs.max_thermal_pct ∧
    (out.type ≠ CUE_TYPE_CHECK_FIT → out.vib_intensity ≤ s1.prefs.max_vib_pct) ∧
    (out.type = CUE_TYPE_CHECK_FIT → out.vib_intensity = 20) := by
  unfold cue_confidence_gate at h
  dsimp only at h
  split at h
  · split at h
    · obtain ⟨h1, h2⟩ := Prod.mk.injEq .. ▸ h
      obtain ⟨h2, h3⟩ := Prod.mk.injEq .. ▸ h2
      subst h2
      refine ⟨Nat.zero_le _, fun hc => ?_, fun _ => rfl⟩
      simp [build_check_fit_cue] at hc
    · exact absurd (congrArg Prod.fst h) (by simp)
  · split at h
    · exact absurd (congrArg Prod.fst h) (by simp)
    · have hb := cue_decision_cascade_out_bounds _ _ _ _ _ h
      exact hb

/-- C2, amended.  For every triggered cue, `thermal_intensity` is at
most the configured `max_thermal_pct`; `vib_intensity` is at most the
configured `max_vib_pct` for every cue type EXCEPT CheckFit, whose
`vib_intensity` is the fixed value 20, not clamped to `max_vib_pct`
(its thermal fields are zero). -/
theorem c2_intensities_clamped_except_checkfit
    (s : CueState) (input : CueInput) (out : CueOutput) (s2 : CueState)
    (h : cue_processor_generate s input = (true, out, s2)) :
    out.thermal_intensity ≤ s.prefs.max_thermal_pct ∧
    (out.type ≠ CUE_TYPE_CHECK_FIT → out.vib_intensity ≤ s.prefs.max_vib_pct) ∧
    (out.type = CUE_TYPE_CHECK_FIT → out.vib_intensity = 20) := by
  unfold cue_processor_generate at h
  dsimp only at h
  split at h
  · exact absurd (congrArg Prod.fst h) (by simp)
  · split at h
    · exact absurd (congrArg Prod.fst h) (by simp)
    · split at h
      · exact absurd (congrArg Prod.fst h) (by simp)
      · split at h
        · exact absurd (congrArg Prod.fst h) (by simp)
        · have := cue_confidence_gate_out_bounds _ _ _ _ _ h
          rwa [update_history_prefs, check_rate_limit_prefs] at this

/-- The qualifying input of the C6 scenario: `coherence_pct = 25`,
everything else benign, at time `t`. -/
def c6_input (t : ℕ) : CueInput :=
  { timestamp_ms := t, micro_var_pct100 := 0, coherence_pct := 25,
    stability_pct := 100, confidence_pct := 100, stress_level := 0,
    artifact_rate_pct := 0 }

/-- A closed instance of the amended C2 bound at a concrete triggering call
(the thermal cue fired from the freshly initialized engine). -/
theorem c2_intensities_clamped_witness :
    (cue_processor_generate cue_processor_init (c6_input 1000)).2.1.thermal_intensity
      ≤ cue_processor_init.prefs.max_thermal_pct :=
  (c2_intensities_clamped_except_checkfit cue_processor_init (c6_input 1000)
    ((cue_processor_generate cue_processor_init (c6_input 1000)).2.1)
    ((cue_processor_generate cue_processor_init (c6_input 1000)).2.2)
    (by decide)).1

/-- C6.  Cooldown classification: with a monotone clock, a candidate cue
type can trigger iff no cue was ever recorded, or — when the last recorded
type equals the candidate or is Combined — the full type-specific cooldown
elapsed since the last cue, and otherwise half of it.  Concretely, with the
thermal cooldown of 120000 ms: a `coherence_pct = 25` input at t=1000
triggers a Thermal cue, an identical input at t=2000 is suppressed, and a
third at t=130000 triggers again. -/
theorem c6_cooldown_full_for_same_type_half_otherwise :
    (∀ (s : CueState) (ty : CueType) (now_ms cooldown : ℕ),
      s.last_cue_ms ≤ now_ms →
      (can_trigger s ty now_ms cooldown = true ↔
        (s.last_cue_ms = 0 ∨
         (if s.last_cue_type = ty ∨ s.last_cue_type = CUE_TYPE_COMBINED
          then cooldown ≤ now_ms - s.last_cue_ms
          else cooldown / 2 ≤ now_ms - s.last_cue_ms)))) ∧
    (cue_processor_generate cue_processor_init (c6_input 1000)).1 = true ∧
    (cue_processor_generate cue_processor_init (c6_input 1000)).2.1.type
      = CUE_TYPE_THERMAL ∧
    (cue_processor_generate (cue_processor_generate cue_processor_init
      (c6_input 1000)).2.2 (c6_input 2000)).1 = false ∧
    (cue_processor_generate (cue_processor_generate (cue_processor_generate
      cue_processor_init (c6_input 1000)).2.2 (c6_input 2000)).2.2
      (c6_input 130000)).1 = true ∧
    (cue_processor_generate (cue_processor_generate (cue_processor_generate
      cue_processor_init (c6_input 1000)).2.2 (c6_input 2000)).2.2
      (c6_input 130000)).2.1.type = CUE_TYPE_THERMAL := by
  refine ⟨?_, by decide, by decide, by decide, by decide, by decide⟩
  intro s ty now_ms cooldown hle
  unfold can_trigger wsub
  by_cases h0 : s.last_cue_ms = 0
  · simp [h0]
  · rw [if_neg h0, if_pos hle]
    by_cases hty : s.last_cue_type = ty ∨ s.last_cue_type = CUE_TYPE_COMBINED
    · simp [hty, h0, ge_iff_le]
    · simp [hty, h0, ge_iff_le]

/-- Closed instance of the C6 cooldown characterization: from the fresh
state (no cue recorded) a thermal cue may trigger at once. -/
theorem c6_cooldown_witness :
    can_trigger cue_processor_init CUE_TYPE_THERMAL 5 CUE_COOLDOWN_THERMAL_MS = true :=
  (c6_cooldown_full_for_same_type_half_otherwise.1 cue_processor_init
    CUE_TYPE_THERMAL 5 CUE_COOLDOWN_THERMAL_MS (by decide)).mpr (Or.inl (by decide))

/-- The critical input of the C9 scenario (`coherence=12, micro_var=1300,
confidence=90`) at time `t`. -/
def c9_critical_input (t : ℕ) : CueInput :=
  { timestamp_ms := t, micro_var_pct100 := 1300, coherence_pct := 12,
    stability_pct := 100, confidence_pct := 90, stress_level := 0,
    artifact_rate_pct := 0 }

/-- C9.  Quiet hours: the window supports overnight wrap (`start > end`
means "hour ≥ start or hour < end", otherwise "start ≤ hour < end").  With
the default window [22,7): at hour 23 even the critical input is suppressed
(`triggered = false`, type None); at hour 14 the same input is not
suppressed by the quiet-hours gate (it triggers). -/
theorem c9_quiet_hours_overnight_wrap :
    (∀ s : CueState, s.prefs.quiet_end_hour < s.prefs.quiet_start_hour →
      (is_quiet_hours s = true ↔
        (s.prefs.quiet_start_hour ≤ s.current_hour ∨
         s.current_hour < s.prefs.quiet_end_hour))) ∧
    (∀ s : CueState, s.prefs.quiet_start_hour ≤ s.prefs.quiet_end_hour →
      (is_quiet_hours s = true ↔
        (s.prefs.quiet_start_hour ≤ s.current_hour ∧
         s.current_hour < s.prefs.quiet_end_hour))) ∧
    (cue_processor_generate (cue_processor_set_hour cue_processor_init 23)
      (c9_critical_input 1000)).1 = false ∧
    (cue_processor_generate (cue_processor_set_hour cue_processor_init 23)
      (c9_critical_input 1000)).2.1.type = CUE_TYPE_NONE ∧
    (cue_processor_generate (cue_processor_set_hour cue_processor_init 14)
      (c9_critical_input 1000)).1 = true := by
  refine ⟨?_, ?_, by decide, by decide, by decide⟩
  · intro s hlt
    unfold is_quiet_hours
    rw [if_pos hlt]
    simp [ge_iff_le]
  · intro s hle
    unfold is_quiet_hours
    rw [if_neg (by omega)]
    simp [ge_iff_le]

/-- Closed instance of the C9 wrap characterization at the default window
[22,7) and hour 23. -/
theorem c9_quiet_hours_witness :
    is_quiet_hours (cue_processor_set_hour cue_processor_init 23) = true :=
  (c9_quiet_hours_overnight_wrap.1 (cue_processor_set_hour cue_processor_init 23)
    (by decide)).mpr (Or.inl (by decide))

/-- The set of last-cue types the cooldown bookkeeping can hold. -/
def RecordedTypeOk (t : CueType) : Prop :=
  t = CUE_TYPE_NONE ∨ t = CUE_TYPE_THERMAL ∨ t = CUE_TYPE_VIBRATION ∨
  t = CUE_TYPE_COMBINED

instance (t : CueType) : Decidable (RecordedTypeOk t) := by
  unfold RecordedTypeOk
  infer_instance

theorem update_history_last (s : CueState) (c : ℕ) :
    (update_history s c).last_cue_type = s.last_cue_type := rfl

theorem check_rate_limit_last (s : CueState) (now_ms : ℕ) :
    (check_rate_limit s now_ms).2.last_cue_type = s.last_cue_type := by
  unfold check_rate_limit
  dsimp only
  split <;> rfl

theorem cue_decision_cascade_last_ok (s2 : CueState) (input : CueInput)
    (now_ms : ℕ) (hs : RecordedTypeOk s2.last_cue_type) :
    RecordedTypeOk ((cue_decision_cascade s2 input now_ms).2.2).last_cue_type := by
  unfold cue_decision_cascade
  split
  · simp [build_alert_cue, record_cue, RecordedTypeOk]
  · split
    · simp [build_combined_cue, record_cue, RecordedTypeOk]
    · split
      · simp [build_breathing_cue, record_cue, RecordedTypeOk]
      · split
        · simp [build_vibration_cue, record_cue, RecordedTypeOk]
        · split
          · simp [build_thermal_cue, record_cue, RecordedTypeOk]
          · split
            · simp [build_preventive_cue, record_cue, RecordedTypeOk]
            · exact hs

theorem cue_confidence_gate_last_ok (s1 : CueState) (input : CueInput)
    (now_ms : ℕ) (hs : RecordedTypeOk s1.last_cue_type) :
    RecordedTypeOk ((cue_confidence_gate s1 input now_ms).2.2).last_cue_type := by
  unfold cue_confidence_gate
  dsimp only
  split
  · split
    · simp [build_check_fit_cue, record_cue, RecordedTypeOk]
    · exact hs
  · split
    · exact hs
    · exact cue_decision_cascade_last_ok _ _ _ hs

theorem cue_generate_last_ok (s : CueState) (input : CueInput)
    (hs : RecordedTypeOk s.last_cue_type) :
    RecordedTypeOk ((cue_processor_generate s input).2.2).last_cue_type := by
  unfold cue_processor_generate
  dsimp only
  split
  · exact hs
  · split
    · exact hs
    · split
      · exact hs
      · split
        · unfold check_rate_limit suppress_cue
          dsimp only
          split <;> exact hs
        · refine cue_confidence_gate_last_ok _ _ _ ?_
          rw [update_history_last, check_rate_limit_last]
          exact hs

theorem cue_decision_cascade_records (s2 : CueState) (input : CueInput)
    (now_ms : ℕ) (out : CueOutput) (s3 : CueState)
    (h : cue_decision_cascade s2 input now_ms = (true, out, s3)) :
    (out.type = CUE_TYPE_ALERT → s3.last_cue_type = CUE_TYPE_COMBINED) ∧
    ((out.type = CUE_TYPE_BREATHING ∨ out.type = CUE_TYPE_CHECK_FIT) →
      s3.last_cue_type = CUE_TYPE_VIBRATION) := by
  unfold cue_decision_cascade at h
  split at h
  · obtain ⟨h1, h2⟩ := Prod.mk.injEq .. ▸ h
    obtain ⟨h2, h3⟩ := Prod.mk.injEq .. ▸ h2
    subst h2; subst h3
    exact ⟨fun _ => rfl, fun hc => by simp [build_alert_cue] at hc⟩
  · split at h
    · obtain ⟨h1, h2⟩ := Prod.mk.injEq .. ▸ h
      obtain ⟨h2, h3⟩ := Prod.mk.injEq .. ▸ h2
      subst h2; subst h3
      exact ⟨fun hc => by simp [build_combined_cue] at hc,
             fun hc => by simp [build_combined_cue] at hc⟩
    · split at h
      · obtain ⟨h1, h2⟩ := Prod.mk.injEq .. ▸ h
        obtain ⟨h2, h3⟩ := Prod.mk.injEq .. ▸ h2
        subst h2; subst h3
        exact ⟨fun hc => by simp [build_breathing_cue] at hc, fun _ => rfl⟩
      · split at h
        · obtain ⟨h1, h2⟩ := Prod.mk.injEq .. ▸ h
          obtain ⟨h2, h3⟩ := Prod.mk.injEq .. ▸ h2
          subst h2; subst h3
          exact ⟨fun hc => by simp [build_vibration_cue] at hc,
                 fun hc => by simp [build_vibration_cue] at hc⟩
        · split at h
          · obtain ⟨h1, h2⟩ := Prod.mk.injEq .. ▸ h
            obtain ⟨h2, h3⟩ := Prod.mk.injEq .. ▸ h2
            subst h2; subst h3
            exact ⟨fun hc => by simp [build_thermal_cue] at hc,
                   fun hc => by simp [build_thermal_cue] at hc⟩
          · split at h
            · obtain ⟨h1, h2⟩ := Prod.mk.injEq .. ▸ h
              obtain ⟨h2, h3⟩ := Prod.mk.injEq .. ▸ h2
              subst h2; subst h3
              exact ⟨fun hc => by simp [build_preventive_cue] at hc,
                     fun hc => by simp [build_preventive_cue] at hc⟩
            · exact absurd (congrArg Prod.fst h) (by simp)

theorem cue_confidence_gate_records (s1 : CueState) (input : CueInput)
    (now_ms : ℕ) (out : CueOutput) (s3 : CueState)
    (h : cue_confidence_gate s1 input now_ms = (true, out, s3)) :
    (out.type = CUE_TYPE_ALERT → s3.last_cue_type = CUE_TYPE_COMBINED) ∧
    ((out.type = CUE_TYPE_BREATHING ∨ out.type = CUE_TYPE_CHECK_FIT) →
      s3.last_cue_type = CUE_TYPE_VIBRATION) := by
  unfold cue_confidence_gate at h
  dsimp only at h
  split at h
  · split at h
    · obtain ⟨h1, h2⟩ := Prod.mk.injEq .. ▸ h
      obtain ⟨h2, h3⟩ := Prod.mk.injEq .. ▸ h2
      subst h2; subst h3
      exact ⟨fun hc => by simp [build_check_fit_cue] at hc, fun _ => rfl⟩
    · exact absurd (congrArg Prod.fst h) (by simp)
  · split at h
    · exact absurd (congrArg Prod.fst h) (by simp)
    · exact cue_decision_cascade_records _ _ _ _ _ h

/-- C10.  The recorded last-cue type used for cooldown bookkeeping is
always one of {None, Thermal, Vibration, Combined} after any sequence of
engine operations, and never Alert, Breathing or CheckFit: a triggered
Alert cue is recorded as Combined, and triggered Breathing and CheckFit
cues are recorded as Vibration. -/
theorem c10_recorded_type_invariant :
    (∀ evs : List CueEvent, RecordedTypeOk (runCue evs).last_cue_type) ∧
    (∀ (s : CueState) (input : CueInput) (out : CueOutput) (s2 : CueState),
      cue_processor_generate s input = (true, out, s2) →
      (out.type = CUE_TYPE_ALERT → s2.last_cue_type = CUE_TYPE_COMBINED) ∧
      ((out.type = CUE_TYPE_BREATHING ∨ out.type = CUE_TYPE_CHECK_FIT) →
        s2.last_cue_type = CUE_TYPE_VIBRATION)) := by
  constructor
  · have hstep : ∀ (s : CueState) (ev : CueEvent), RecordedTypeOk s.last_cue_type →
        RecordedTypeOk (cueStepEvent s ev).last_cue_type := by
      intro s ev hs
      cases ev with
      | evInit => exact Or.inl rfl
      | evSetPrefs p => exact hs
      | evSetHour hour =>
        show RecordedTypeOk (cue_processor_set_hour s hour).last_cue_type
        unfold cue_processor_set_hour
        split <;> exact hs
      | evGenerate input => exact cue_generate_last_ok s input hs
      | evReset => exact Or.inl rfl
    have hrun : ∀ (evs : List CueEvent) (s : CueState),
        RecordedTypeOk s.last_cue_type →
        RecordedTypeOk (evs.foldl cueStepEvent s).last_cue_type := by
      intro evs
      induction evs with
      | nil => intro s hs; exact hs
      | cons ev rest ih => intro s hs; exact ih _ (hstep s ev hs)
    intro evs
    exact hrun evs zeroCueState (Or.inl rfl)
  · intro s input out s2 h
    unfold cue_processor_generate at h
    dsimp only at h
    split at h
    · exact absurd (congrArg Prod.fst h) (by simp)
    · split at h
      · exact absurd (congrArg Prod.fst h) (by simp)
      · split at h
        · exact absurd (congrArg Prod.fst h) (by simp)
        · split at h
          · exact absurd (congrArg Prod.fst h) (by simp)
          · exact cue_confidence_gate_records _ _ _ _ _ h

/-- Closed instance of C10's recording rule: the CheckFit cue fired by the
c2 trace is recorded as Vibration. -/
theorem c10_recorded_type_witness :
    ((cue_processor_generate (cue_processor_generate (cue_processor_generate
        (cue_processor_set_preferences cue_processor_init c2_prefs)
        (c2_input 1000)).2.2 (c2_input 2000)).2.2 (c2_input 3000)).2.2).last_cue_type
      = CUE_TYPE_VIBRATION :=
  (c10_recorded_type_invariant.2
    (cue_processor_generate (cue_processor_generate
      (cue_processor_set_preferences cue_processor_init c2_prefs)
      (c2_input 1000)).2.2 (c2_input 2000)).2.2
    (c2_input 3000)
    ((cue_processor_generate (cue_processor_generate (cue_processor_generate
      (cue_processor_set_preferences cue_processor_init c2_prefs)
      (c2_input 1000)).2.2 (c2_input 2000)).2.2 (c2_input 3000)).2.1)
    ((cue_processor_generate (cue_processor_generate (cue_processor_generate
      (cue_processor_set_preferences cue_processor_init c2_prefs)
      (c2_input 1000)).2.2 (c2_input 2000)).2.2 (c2_input 3000)).2.2)
    (by decide)).2 (Or.inr (by decide))

/-- The C8 input: coherence `coh` at time `t`, everything else benign. -/
def c8_input (t coh : ℕ) : CueInput :=
  { timestamp_ms := t, micro_var_pct100 := 0, coherence_pct := coh,
    stability_pct := 100, confidence_pct := 100, stress_level := 0,
    artifact_rate_pct := 0 }

/-- A reachable engine state with a Thermal cue recorded at t=1000 and a
deteriorating coherence history (see `c8_base_reachable`). -/
def c8_base : CueState :=
  { prefs := { enabled := true, max_thermal_pct := 80, max_vib_pct := 70,
               quiet_start_hour := 22, quiet_end_hour := 7, sensitivity := 1,
               breathing_enabled := true, thermal_enabled := true,
               vibration_enabled := true },
    last_cue_ms := 1000, last_cue_type := CUE_TYPE_THERMAL, current_hour := 12,
    hour_start_ms := 0, cues_this_hour := 1, consecutive_low_conf := 0,
    coherence_history := [25, 90, 90, 90, 55, 55, 55, 0],
    history_idx := 7, history_count := 7,
    total_generated := 1, total_suppressed := 0, inited := true }

/-- Model of `c8_base` is the state the engine reaches from `cue_processor_init`
after a Thermal trigger at t=1000 (coherence 25) and six history-building
calls (coherence 90,90,90,55,55,55). -/
theorem c8_base_reachable :
    [c8_input 1000 25, c8_input 2000 90, c8_input 3000 90, c8_input 4000 90,
     c8_input 5000 55, c8_input 6000 55, c8_input 7000 55].foldl
      (fun s i => (cue_processor_generate s i).2.2) cue_processor_init = c8_base := by
  decide

/-- C8, counterexample.  From `c8_base`, a coherence-50 input at
t=201000 satisfies every premise of the claim: the deteriorating-trend rule
applies (≥ 6 history samples, first-half average 73 exceeds second-half
average 53 by more than 10%), thermal cues are enabled, no earlier cascade
rule matches, and 200000 ms ≥ 180000 ms (= 1.5 × thermal cooldown) have
elapsed since the last (Thermal) cue.  The claim therefore requires the
preventive thermal cue to fire — but the code suppresses it, because the
actual gate in `cue_processor_generate` is
`can_trigger(THERMAL, now, CUE_COOLDOWN_THERMAL_MS * 2)`, i.e. 240000 ms. -/
theorem c8_preventive_not_gated_at_180000 :
    detect_deteriorating_trend
      { (update_history c8_base 50) with consecutive_low_conf := 0 } = true ∧
    c8_base.prefs.thermal_enabled = true ∧
    wsub 201000 c8_base.last_cue_ms = 200000 ∧
    (CUE_COOLDOWN_THERMAL_MS * 3) / 2 ≤ 200000 ∧
    (cue_processor_generate c8_base (c8_input 201000 50)).1 = false := by
  decide

/-- C8, amended.  The preventive thermal cue is gated by
`can_trigger` with a cooldown of 2× the thermal cooldown, i.e. 240000 ms
with thermal cooldown 120000 ms (same-type case); the 1.5× value (180000
ms) only appears as the advisory `cooldown_ms` field of the produced cue,
which carries the profile's base thermal intensity (clamped to
`max_thermal_pct`).  Shown on the reachable family of calls from
`c8_base` at any time `now` in the current rate-limit window: the cue
triggers iff 240000 ms have elapsed since the last thermal cue, and the
output is then exactly the preventive cue. -/
theorem c8_preventive_gated_at_twice_thermal_cooldown (now : ℕ)
    (h1 : 1000 ≤ now) (h2 : now < 3600000) :
    ((cue_processor_generate c8_base (c8_input now 50)).1 = true ↔
      240000 ≤ now - 1000) ∧
    (240000 ≤ now - 1000 →
      (cue_processor_generate c8_base (c8_input now 50)).2.1 =
        { type := CUE_TYPE_THERMAL, priority := CUE_PRIORITY_LOW,
          thermal_intensity :=
            clamp_intensity (PROFILES c8_base.prefs.sensitivity).thermal_base
              c8_base.prefs.max_thermal_pct,
          thermal_duration_s := 8, vib_pattern := VIB_PATTERN_OFF,
          vib_intensity := 0,
          cooldown_ms := (CUE_COOLDOWN_THERMAL_MS * 3) / 2 }) := by
  have hwsub0 : wsub now 0 = now := by
    unfold wsub
    simp
  have hwsub1 : wsub now 1000 = now - 1000 := by
    unfold wsub
    rw [if_pos h1]
  have hrlim : check_rate_limit c8_base now = (true, c8_base) := by
    unfold check_rate_limit
    dsimp only
    rw [show wsub now c8_base.hour_start_ms = now from hwsub0]
    rw [if_neg (show ¬ now ≥ CUE_HOUR_MS from by unfold CUE_HOUR_MS; omega)]
    rfl
  have hct : can_trigger
      { (update_history c8_base 50) with consecutive_low_conf := 0 }
      CUE_TYPE_THERMAL now (CUE_COOLDOWN_THERMAL_MS * 2)
      = decide (240000 ≤ now - 1000) := by
    unfold can_trigger
    rw [if_neg (by decide), if_pos (Or.inl (by decide))]
    rw [show wsub now ({ (update_history c8_base 50) with
          consecutive_low_conf := 0 } : CueState).last_cue_ms = now - 1000 from hwsub1]
    rfl
  unfold cue_processor_generate
  dsimp only [c8_input]
  rw [if_neg (by decide), if_neg (by decide), if_neg (by decide), hrlim]
  rw [if_neg (by decide)]
  unfold cue_confidence_gate
  dsimp only
  rw [if_neg (by decide), if_neg (by decide)]
  unfold cue_decision_cascade
  dsimp only
  rw [if_neg (fun hcon => absurd hcon.1 (by decide)),
      if_neg (fun hcon => absurd hcon.1.1 (by decide)),
      if_neg (fun hcon => absurd hcon.1.1 (by decide)),
      if_neg (fun hcon => absurd hcon.1.1 (by decide)),
      if_neg (fun hcon => absurd hcon.1.1 (by decide))]
  by_cases hc : 240000 ≤ now - 1000
  · rw [if_pos ⟨by decide, by decide, by rw [hct]; exact decide_eq_true hc⟩]
    exact ⟨by simp [hc], fun _ => rfl⟩
  · rw [if_neg (fun hcon => hc (of_decide_eq_true (hct ▸ hcon.2.2)))]
    simp [hc]

/-- Closed instance of the amended C8 gate: at t=241000 (elapsed 240000 ms)
the preventive thermal cue fires. -/
theorem c8_preventive_gate_witness :
    (cue_processor_generate c8_base (c8_input 241000 50)).1 = true :=
  (c8_preventive_gated_at_twice_thermal_cooldown 241000 (by decide)
    (by decide)).1.mpr (by decide)

/-- C4.  `biometrics_process_rr` rejects, returning `false` and leaving
every field of the metrics unchanged, whenever `rr_ms < 300` or
`rr_ms > 2000`, or (once at least one valid sample exists) the absolute
difference from the stored `last_rr_ms` exceeds 20% of `last_rr_ms`.
This holds for any model `sq` of `sqrtf`. -/
theorem c4_rejected_samples_do_not_mutate (sq : ℚ → ℚ) (m : HrMetrics) (rr_ms : ℚ)
    (h : rr_ms < 300 ∨ rr_ms > 2000 ∨
         (0 < m.valid_samples ∧ |rr_ms - m.last_rr_ms| > (1/5) * m.last_rr_ms)) :
    biometrics_process_rr sq m rr_ms = (false, m) := by
  by_cases h1 : rr_ms < MIN_RR_MS ∨ rr_ms > MAX_RR_MS
  · unfold biometrics_process_rr
    rw [if_pos h1]
  · have h2 : 0 < m.valid_samples ∧ |rr_ms - m.last_rr_ms| > (1/5) * m.last_rr_ms := by
      rcases h with h | h | h
      · exact absurd (Or.inl h) h1
      · exact absurd (Or.inr h) h1
      · exact h
    unfold biometrics_process_rr
    rw [if_neg h1, if_pos ⟨h2.1, by
      have := h2.2
      unfold MAX_RR_CHANGE_ALPHA
      linarith⟩]

/-- Closed instance of C4: an out-of-range RR value (100 ms) is rejected
from the reset state without mutating it. -/
theorem c4_rejected_samples_witness :
    biometrics_process_rr (fun x => x) biometrics_reset 100 = (false, biometrics_reset) :=
  c4_rejected_samples_do_not_mutate (fun x => x) biometrics_reset 100
    (Or.inl (by norm_num))

/-- The invariant of C5 over the metrics struct. -/
def BioInv (m : HrMetrics) : Prop :=
  0 ≤ m.mean_diff_sq ∧ 0 ≤ m.rmssd ∧ 0 ≤ m.stress_score ∧ m.stress_score ≤ 1 ∧
  m.valid_samples ≤ m.total_samples

theorem bio_update_rmssd_inv (sq : ℚ → ℚ) (hsq : ∀ x, 0 ≤ x → 0 ≤ sq x)
    (m : HrMetrics) (hm : BioInv m) (rr_ms : ℚ) :
    BioInv (bio_update_rmssd sq m rr_ms) ∧
    (bio_update_rmssd sq m rr_ms).valid_samples = m.valid_samples ∧
    (bio_update_rmssd sq m rr_ms).total_samples = m.total_samples := by
  obtain ⟨h1, h2, h3, h4, h5⟩ := hm
  unfold bio_update_rmssd
  dsimp only
  split
  · have hdsq : 0 ≤ (rr_ms - m.last_rr_ms) * (rr_ms - m.last_rr_ms) :=
      mul_self_nonneg _
    split
    · exact ⟨⟨hdsq, hsq _ hdsq, h3, h4, h5⟩, rfl, rfl⟩
    · have hmds : 0 ≤ (1/10 : ℚ) * ((rr_ms - m.last_rr_ms) * (rr_ms - m.last_rr_ms)) +
          (9/10) * m.mean_diff_sq := by positivity
      exact ⟨⟨hmds, hsq _ hmds, h3, h4, h5⟩, rfl, rfl⟩
  · exact ⟨⟨h1, h2, h3, h4, h5⟩, rfl, rfl⟩

theorem bio_update_mean_inv (m : HrMetrics) (hm : BioInv m) (rr_ms : ℚ) :
    BioInv (bio_update_mean m rr_ms) ∧
    (bio_update_mean m rr_ms).rmssd = m.rmssd ∧
    (bio_update_mean m rr_ms).valid_samples = m.valid_samples ∧
    (bio_update_mean m rr_ms).total_samples = m.total_samples := by
  obtain ⟨h1, h2, h3, h4, h5⟩ := hm
  unfold bio_update_mean
  split
  · exact ⟨⟨h1, h2, h3, h4, h5⟩, rfl, rfl, rfl⟩
  · exact ⟨⟨h1, h2, h3, h4, h5⟩, rfl, rfl, rfl⟩

theorem bio_baseline_fields (m : HrMetrics) :
    (bio_baseline m).mean_diff_sq = m.mean_diff_sq ∧
    (bio_baseline m).rmssd = m.rmssd ∧
    (bio_baseline m).stress_score = m.stress_score ∧
    (bio_baseline m).valid_samples = m.valid_samples ∧
    (bio_baseline m).total_samples = m.total_samples := by
  unfold bio_baseline
  dsimp only
  split <;> split <;> exact ⟨rfl, rfl, rfl, rfl, rfl⟩

theorem bio_stress_raw_mem (ratio : ℚ) :
    0 ≤ bio_stress_raw ratio ∧ bio_stress_raw ratio ≤ 1 := by
  unfold bio_stress_raw
  dsimp only
  constructor <;> (repeat' split) <;> linarith

theorem bio_update_stress_inv (m : HrMetrics) (hm : BioInv m) :
    BioInv (bio_update_stress m) ∧
    (bio_update_stress m).valid_samples = m.valid_samples ∧
    (bio_update_stress m).total_samples = m.total_samples := by
  obtain ⟨h1, h2, h3, h4, h5⟩ := hm
  obtain ⟨f1, f2, f3, f4, f5⟩ := bio_baseline_fields m
  obtain ⟨r1, r2⟩ := bio_stress_raw_mem ((bio_baseline m).rmssd / (bio_baseline m).baseline_rmssd)
  unfold bio_update_stress
  dsimp only
  split
  · split
    · refine ⟨⟨?_, ?_, r1, r2, ?_⟩, f4, f5⟩
      · rw [f1]; exact h1
      · rw [f2]; exact h2
      · rw [f4, f5]; exact h5
    · refine ⟨⟨?_, ?_, ?_, ?_, ?_⟩, f4, f5⟩
      · rw [f1]; exact h1
      · rw [f2]; exact h2
      · rw [f3]; linarith
      · rw [f3]; linarith
      · rw [f4, f5]; exact h5
  · exact ⟨⟨h1, h2, h3, h4, h5⟩, rfl, rfl⟩

theorem biometrics_process_rr_inv (sq : ℚ → ℚ) (hsq : ∀ x, 0 ≤ x → 0 ≤ sq x)
    (m : HrMetrics) (hm : BioInv m) (rr_ms : ℚ) :
    BioInv (biometrics_process_rr sq m rr_ms).2 ∧
    m.valid_samples ≤ (biometrics_process_rr sq m rr_ms).2.valid_samples := by
  unfold biometrics_process_rr
  dsimp only
  split
  · exact ⟨hm, le_refl _⟩
  · split
    · exact ⟨hm, le_refl _⟩
    · obtain ⟨ha, ha2, ha3⟩ := bio_update_rmssd_inv sq hsq m hm rr_ms
      obtain ⟨hb, hb2, hb3, hb4⟩ := bio_update_mean_inv _ ha rr_ms
      obtain ⟨hc, hc2, hc3⟩ := bio_update_stress_inv _ hb
      obtain ⟨g1, g2, g3, g4, g5⟩ := hc
      refine ⟨?_, ?_⟩
      · unfold BioInv
        dsimp only
        exact ⟨g1, g2, g3, g4, by omega⟩
      · dsimp only
        omega

/-- C5.  Starting from `biometrics_reset`, after any sequence of
`biometrics_process_rr` calls (arbitrary RR inputs): `rmssd ≥ 0`,
`stress_score ∈ [0,1]`, `valid_samples ≤ total_samples`, and
`valid_samples` is monotonically non-decreasing along the sequence.
`sq` is any model of `sqrtf` that is nonnegative on nonnegative inputs. -/
theorem c5_metrics_invariants (sq : ℚ → ℚ) (hsq : ∀ x, 0 ≤ x → 0 ≤ sq x)
    (rrs rest : List ℚ) :
    0 ≤ (biometrics_run sq rrs).rmssd ∧
    0 ≤ (biometrics_run sq rrs).stress_score ∧
    (biometrics_run sq rrs).stress_score ≤ 1 ∧
    (biometrics_run sq rrs).valid_samples ≤ (biometrics_run sq rrs).total_samples ∧
    (biometrics_run sq rrs).valid_samples ≤
      (biometrics_run sq (rrs ++ rest)).valid_samples := by
  have hfrom : ∀ (l : List ℚ) (m : HrMetrics), BioInv m →
      BioInv (biometrics_run_from sq m l) ∧
      m.valid_samples ≤ (biometrics_run_from sq m l).valid_samples := by
    intro l
    induction l with
    | nil => intro m hm; exact ⟨hm, le_refl _⟩
    | cons rr rest ih =>
      intro m hm
      obtain ⟨hstep, hmono⟩ := biometrics_process_rr_inv sq hsq m hm rr
      obtain ⟨hrun, hmono2⟩ := ih _ hstep
      exact ⟨hrun, le_trans hmono hmono2⟩
  have hreset : BioInv biometrics_reset := by
    unfold BioInv biometrics_reset
    norm_num
  have hsplit : biometrics_run sq (rrs ++ rest)
      = biometrics_run_from sq (biometrics_run sq rrs) rest := by
    unfold biometrics_run biometrics_run_from
    rw [List.foldl_append]
  obtain ⟨⟨i1, i2, i3, i4, i5⟩, _⟩ := hfrom rrs biometrics_reset hreset
  obtain ⟨_, hmono⟩ := hfrom rest (biometrics_run sq rrs) ⟨i1, i2, i3, i4, i5⟩
  exact ⟨i2, i3, i4, i5, by rw [hsplit]; exact hmono⟩

/-- Closed instance of C5 after two accepted samples (800 ms, 810 ms) with
the zero model of `sqrtf`. -/
theorem c5_metrics_invariants_witness :
    0 ≤ (biometrics_run (fun _ => 0) [800, 810]).rmssd ∧
    (biometrics_run (fun _ => 0) [800, 810]).valid_samples ≤
      (biometrics_run (fun _ => 0) ([800, 810] ++ [200])).valid_samples :=
  ⟨(c5_metrics_invariants (fun _ => 0) (fun _ _ => le_refl 0) [800, 810] [200]).1,
   (c5_metrics_invariants (fun _ => 0) (fun _ _ => le_refl 0) [800, 810] [200]).2.2.2.2⟩

/-- C7.  The peak-detector contract of `wellness_process_sample`,
stated against the filter stage `wellness_filter` (run on the seeded
state): with `s1` the post-filter state and `e` the integrated energy, the
sample is accepted as a peak iff (no prior peak, i.e. the `last_peak_ts_ms
= 0` sentinel, OR more than 300 ms elapsed since the last peak) AND
`e` exceeds the current adaptive threshold.  On acceptance the threshold
becomes `0.9·threshold + 0.1·e` and an RR value equal to the timestamp
delta is returned and pushed into the 32-entry drop-oldest ring buffer iff
a previous peak existed; on rejection the threshold is multiplied by 0.995
and no RR value is returned (buffer and last-peak time unchanged). -/
theorem c7_peak_acceptance_contract (s : WellnessState) (sample : ℚ)
    (timestamp_ms : ℕ) (s1 : WellnessState) (e : ℚ)
    (hf : wellness_filter (wellness_seed s sample) sample = (s1, e)) :
    ((s1.last_peak_ts_ms = 0 ∨ wsub timestamp_ms s1.last_peak_ts_ms > 300) ∧
        e > s1.threshold →
      (wellness_process_sample s sample timestamp_ms).1.threshold
          = (9/10) * s1.threshold + (1/10) * e ∧
      (wellness_process_sample s sample timestamp_ms).1.last_peak_ts_ms
          = timestamp_ms ∧
      (0 < s1.last_peak_ts_ms →
        (wellness_process_sample s sample timestamp_ms).2
            = some ((wsub timestamp_ms s1.last_peak_ts_ms : ℕ) : ℚ) ∧
        (wellness_process_sample s sample timestamp_ms).1.rrbuf
            = rr_push s1.rrbuf ((wsub timestamp_ms s1.last_peak_ts_ms : ℕ) : ℚ)) ∧
      (s1.last_peak_ts_ms = 0 →
        (wellness_process_sample s sample timestamp_ms).2 = none ∧
        (wellness_process_sample s sample timestamp_ms).1.rrbuf = s1.rrbuf)) ∧
    (¬ ((s1.last_peak_ts_ms = 0 ∨ wsub timestamp_ms s1.last_peak_ts_ms > 300) ∧
        e > s1.threshold) →
      (wellness_process_sample s sample timestamp_ms).2 = none ∧
      (wellness_process_sample s sample timestamp_ms).1.threshold
          = s1.threshold * (199/200) ∧
      (wellness_process_sample s sample timestamp_ms).1.rrbuf = s1.rrbuf ∧
      (wellness_process_sample s sample timestamp_ms).1.last_peak_ts_ms
          = s1.last_peak_ts_ms) := by
  unfold wellness_process_sample
  simp only [hf]
  constructor
  · intro hacc
    have hacc2 : (s1.last_peak_ts_ms = 0 ∨
        wsub timestamp_ms s1.last_peak_ts_ms > REFRACTORY_MS) ∧ e > s1.threshold := hacc
    rw [if_pos hacc2]
    by_cases hprev : s1.last_peak_ts_ms > 0
    · rw [if_pos hprev]
      refine ⟨by unfold THRESH_BOOST_ALPHA; ring, rfl, fun _ => ⟨rfl, rfl⟩,
              fun h0 => absurd h0 (by omega)⟩
    · rw [if_neg hprev]
      refine ⟨by unfold THRESH_BOOST_ALPHA; ring, rfl,
              fun h0 => absurd h0 hprev, fun _ => ⟨rfl, rfl⟩⟩
  · intro hrej
    have hrej2 : ¬ ((s1.last_peak_ts_ms = 0 ∨
        wsub timestamp_ms s1.last_peak_ts_ms > REFRACTORY_MS) ∧ e > s1.threshold) := hrej
    rw [if_neg hrej2]
    exact ⟨rfl, rfl, rfl, rfl⟩

/-- Closed instance of C7 (rejection case): the first sample with value 0
at t=0 produces zero integrated energy, which does not exceed the initial
threshold 1/20, so no RR is returned and the threshold decays by 0.995. -/
theorem c7_peak_acceptance_witness :
    (wellness_process_sample wellness_reset 0 0).2 = none ∧
    (wellness_process_sample wellness_reset 0 0).1.threshold
      = (wellness_filter (wellness_seed wellness_reset 0) 0).1.threshold
        * (199/200) := by
  have h := c7_peak_acceptance_contract wellness_reset 0 0
    (wellness_filter (wellness_seed wellness_reset 0) 0).1
    (wellness_filter (wellness_seed wellness_reset 0) 0).2 rfl
  have hrej := h.2 (fun hcon => absurd hcon.2 (by
    norm_num [wellness_filter, wellness_seed, wellness_reset, moving_average_update,
      MA_DC_WINDOW, MA_INTEGRATOR_WINDOW, INITIAL_THRESHOLD]))
  exact ⟨hrej.1, hrej.2.1⟩

/-! ### Signature-player safety (C3) -/

theorem getD_pred {α : Type} (P : α → Prop) (d : α) :
    ∀ (l : List α), P d → (∀ a ∈ l, P a) → ∀ i : ℕ, P (l.getD i d)
  | [], hd, _, i => by simpa [List.getD] using hd
  | a :: l, hd, hl, 0 => by
    simpa [List.getD] using hl a (List.mem_cons_self a l)
  | a :: l, hd, hl, (i+1) => by
    simpa [List.getD] using
      getD_pred P d l hd (fun b hb => hl b (List.mem_cons_of_mem a hb)) i

theorem ease_calculate_mem (tm : TrigModel) (htm : tm.InRange)
    (curve : EaseCurve) (t : ℚ) :
    0 ≤ ease_calculate tm curve t ∧ ease_calculate tm curve t ≤ 1 := by
  unfold ease_calculate
  split
  · norm_num
  · split
    · norm_num
    · rename_i ht0 ht1
      have h0 : 0 < t := lt_of_not_ge (by simpa using ht0)
      have h1 : t < 1 := lt_of_not_ge (by simpa using ht1)
      have ht := htm t (le_of_lt h0) (le_of_lt h1)
      cases curve with
      | EASE_LINEAR => exact ⟨le_of_lt h0, le_of_lt h1⟩
      | EASE_IN_SINE =>
        obtain ⟨⟨hc0, hc1⟩, _, _⟩ := ht
        constructor <;> linarith
      | EASE_OUT_SINE =>
        obtain ⟨_, ⟨hs0, hs1⟩, _⟩ := ht
        exact ⟨hs0, hs1⟩
      | EASE_IN_OUT_SINE =>
        obtain ⟨_, _, hp0, hp1⟩ := ht
        constructor <;> [linarith; linarith]
      | EASE_OUT_QUAD =>
        constructor <;> nlinarith
      | EASE_IN_QUAD =>
        constructor <;> nlinarith
      | EASE_BREATH =>
        dsimp only
        split
        · rename_i hlt
          have hi0 : (0:ℚ) ≤ t / (2/5) := by positivity
          have hi1 : t / (2/5) ≤ 1 := by
            rw [div_le_one (by norm_num)]
            linarith
          have hti := htm _ hi0 hi1
          obtain ⟨_, _, hp0, hp1⟩ := hti
          constructor <;> [linarith; linarith]
        · rename_i hge
          have hge2 : (2/5 : ℚ) ≤ t := le_of_not_lt hge
          have he0 : (0:ℚ) ≤ (t - 2/5) / (3/5) := by
            apply div_nonneg <;> linarith
          have he1 : (t - 2/5) / (3/5) < 1 := by
            rw [div_lt_one (by norm_num)]
            linarith
          constructor <;> nlinarith

theorem ease_intensity_le (tm : TrigModel) (htm : tm.InRange)
    (vfrom vto B : ℕ) (curve : EaseCurve) (t : ℚ)
    (hB : B ≤ 100) (hfrom : vfrom ≤ B) (hto : vto ≤ B) :
    ease_intensity tm vfrom vto curve t ≤ B := by
  obtain ⟨he0, he1⟩ := ease_calculate_mem tm htm curve t
  unfold ease_intensity
  dsimp only
  set ec := ease_calculate tm curve t with hec
  set r : ℚ := (vfrom : ℚ) + ((vto : ℚ) - (vfrom : ℚ)) * ec with hr
  have hfromQ : (vfrom : ℚ) ≤ (B : ℚ) := by exact_mod_cast hfrom
  have htoQ : (vto : ℚ) ≤ (B : ℚ) := by exact_mod_cast hto
  have hBQ : (B : ℚ) ≤ 100 := by exact_mod_cast hB
  have hkey : (B : ℚ) - r = ((B : ℚ) - vfrom) * (1 - ec) + ((B : ℚ) - vto) * ec := by
    rw [hr]; ring
  have hrB : r ≤ (B : ℚ) := by
    have hterm1 : 0 ≤ ((B : ℚ) - vfrom) * (1 - ec) := by
      apply mul_nonneg <;> linarith
    have hterm2 : 0 ≤ ((B : ℚ) - vto) * ec := by
      apply mul_nonneg <;> linarith
    linarith
  split
  · exact Nat.zero_le _
  · split
    · rename_i hgt
      exact absurd hgt (by push_neg; linarith)
    · rename_i hneg hgt
      have hfloor : ⌊r + 1/2⌋ ≤ (B : ℤ) := by
        rw [Int.floor_le_iff]
        push_cast
        linarith
      exact Int.toNat_le.mpr hfloor

/-- The player-state invariant behind C3: both live outputs and all values
they can be interpolated from respect the hard channel ceilings. -/
def SigInv (s : SigState) : Prop :=
  s.vib_output ≤ 65 ∧ s.thermal_output ≤ 70 ∧ s.fade_from_vib ≤ 65 ∧
  s.fade_from_thermal ≤ 70 ∧ s.step_from_intensity ≤ 65 ∧
  s.intensity_scale ≤ 100 ∧ ∀ st ∈ s.steps, st.target_intensity ≤ 55

theorem sig_pattern_targets_le (p : SigPattern) :
    ∀ st ∈ SIG_PATTERNS p, st.target_intensity ≤ 55 := by
  cases p <;> decide

theorem signature_safe_vibration_le (requested : ℕ) :
    signature_safe_vibration requested ≤ requested ∧
    signature_safe_vibration requested ≤ 65 := by
  unfold signature_safe_vibration SIG_VIB_MAX_INTENSITY
  split <;> omega

theorem signature_safe_thermal_le (requested : ℕ) :
    signature_safe_thermal requested ≤ requested ∧
    signature_safe_thermal requested ≤ 70 := by
  unfold signature_safe_thermal SIG_THERMAL_MAX
  split <;> omega

theorem sigInv_init : SigInv signature_init := by
  unfold SigInv signature_init
  simp

theorem sigInv_set_vibration (s : SigState) (i : ℕ) (hs : SigInv s) (hi : i ≤ 65) :
    SigInv (set_vibration s i) := by
  obtain ⟨h1, h2, h3, h4, h5, h6, h7⟩ := hs
  unfold set_vibration
  split
  · exact ⟨hi, h2, h3, h4, h5, h6, h7⟩
  · exact ⟨h1, h2, h3, h4, h5, h6, h7⟩

theorem sigInv_set_thermal (s : SigState) (i : ℕ) (hs : SigInv s) (hi : i ≤ 70) :
    SigInv (set_thermal s i) := by
  obtain ⟨h1, h2, h3, h4, h5, h6, h7⟩ := hs
  unfold set_thermal
  split
  · exact ⟨h1, hi, h3, h4, h5, h6, h7⟩
  · exact ⟨h1, h2, h3, h4, h5, h6, h7⟩

theorem sigInv_stop (s : SigState) (hs : SigInv s) : SigInv (signature_stop s) := by
  obtain ⟨h1, h2, h3, h4, h5, h6, h7⟩ := hs
  unfold signature_stop
  split
  · exact ⟨h1, h2, h3, h4, h5, h6, h7⟩
  · exact ⟨h1, h2, h1, h2, h5, h6, h7⟩

theorem sigInv_stop_immediate (s : SigState) (hs : SigInv s) :
    SigInv (signature_stop_immediate s) := by
  have h0 := sigInv_set_thermal (set_vibration s 0) 0
    (sigInv_set_vibration s 0 hs (by omega)) (by omega)
  obtain ⟨h1, h2, h3, h4, h5, h6, _⟩ := h0
  unfold signature_stop_immediate
  exact ⟨h1, h2, h3, h4, h5, h6, by simp⟩

theorem sigInv_play (s : SigState) (p : SigPattern) (sc : ℕ) (hs : SigInv s) :
    SigInv (signature_play s p sc) := by
  unfold signature_play
  dsimp only
  have hs2 : SigInv (if ¬ s.inited = true then signature_init else s) := by
    split
    · exact sigInv_init
    · exact hs
  split
  · exact sigInv_stop _ hs2
  · split
    · exact hs2
    · have h0 := sigInv_set_thermal (set_vibration _ 0)  0
        (sigInv_set_vibration _ 0 hs2 (by omega)) (by omega)
      obtain ⟨h1, h2, h3, h4, h5, h6, _⟩ := h0
      refine ⟨h1, h2, h3, h4, Nat.zero_le _, ?_, sig_pattern_targets_le p⟩
      show (if sc > 100 then 100 else sc) ≤ 100
      split <;> omega

theorem sigInv_fade_tick (tm : TrigModel) (htm : tm.InRange) (s : SigState)
    (now_ms : ℕ) (hs : SigInv s) : SigInv (signature_fade_tick tm s now_ms) := by
  obtain ⟨h1, h2, h3, h4, h5, h6, h7⟩ := hs
  unfold signature_fade_tick
  dsimp only
  split
  · exact sigInv_stop_immediate _ ⟨h1, h2, h3, h4, h5, h6, h7⟩
  · refine sigInv_set_thermal _ _
      (sigInv_set_vibration _ _ ⟨h1, h2, h3, h4, h5, h6, h7⟩ ?_) ?_
    · exact ease_intensity_le tm htm _ 0 65 EASE_OUT_SINE _ (by omega) h3 (by omega)
    · exact ease_intensity_le tm htm _ 0 70 EASE_OUT_SINE _ (by omega) h4 (by omega)

theorem sig_step_target_le (step : SigStep) (scale : ℕ)
    (hstep : step.target_intensity ≤ 55) (hscale : scale ≤ 100) :
    sig_step_target step scale ≤ 55 := by
  unfold sig_step_target
  dsimp only
  have h0 : step.target_intensity * scale / 100 ≤ 55 := by
    have hmul : step.target_intensity * scale ≤ 55 * 100 := Nat.mul_le_mul hstep hscale
    calc step.target_intensity * scale / 100 ≤ 55 * 100 / 100 :=
          Nat.div_le_div_right hmul
      _ = 55 := by norm_num
  split
  · exact le_trans (signature_safe_vibration_le _).1 h0
  · exact le_trans (signature_safe_thermal_le _).1 h0

theorem sigInv_step_advance (s : SigState) (target now_ms : ℕ) (hs : SigInv s)
    (htarget : target ≤ 65) : SigInv (sig_step_advance s target now_ms) := by
  obtain ⟨h1, h2, h3, h4, h5, h6, h7⟩ := hs
  unfold sig_step_advance
  dsimp only
  split
  · split
    · exact ⟨h1, h2, h3, h4, htarget, h6, h7⟩
    · exact sigInv_stop _ ⟨h1, h2, h3, h4, htarget, h6, h7⟩
  · exact ⟨h1, h2, h3, h4, htarget, h6, h7⟩

theorem sigInv_step_tick (tm : TrigModel) (htm : tm.InRange) (s : SigState)
    (now_ms : ℕ) (hs : SigInv s) : SigInv (signature_step_tick tm s now_ms) := by
  obtain ⟨h1, h2, h3, h4, h5, h6, h7⟩ := hs
  have hstep : (s.steps.getD s.step_index SIG_STEP_END).target_intensity ≤ 55 :=
    getD_pred (fun st => st.target_intensity ≤ 55) SIG_STEP_END s.steps
      (by norm_num [SIG_STEP_END]) h7 s.step_index
  have htarget : sig_step_target (s.steps.getD s.step_index SIG_STEP_END)
      s.intensity_scale ≤ 55 := sig_step_target_le _ _ hstep h6
  unfold signature_step_tick
  dsimp only
  have hcur : ∀ t : ℚ, ease_intensity tm s.step_from_intensity
      (sig_step_target (s.steps.getD s.step_index SIG_STEP_END) s.intensity_scale)
      (s.steps.getD s.step_index SIG_STEP_END).ease t ≤ 65 := fun t =>
    ease_intensity_le tm htm _ _ 65 _ t (by omega) h5 (by omega)
  have hs2 : ∀ t : ℚ, SigInv (if (s.steps.getD s.step_index SIG_STEP_END).is_vibration = true
      then set_vibration s (ease_intensity tm s.step_from_intensity
        (sig_step_target (s.steps.getD s.step_index SIG_STEP_END) s.intensity_scale)
        (s.steps.getD s.step_index SIG_STEP_END).ease t)
      else set_thermal s (ease_intensity tm s.step_from_intensity
        (sig_step_target (s.steps.getD s.step_index SIG_STEP_END) s.intensity_scale)
        (s.steps.getD s.step_index SIG_STEP_END).ease t)) := by
    intro t
    split
    · exact sigInv_set_vibration _ _ ⟨h1, h2, h3, h4, h5, h6, h7⟩ (hcur t)
    · exact sigInv_set_thermal _ _ ⟨h1, h2, h3, h4, h5, h6, h7⟩
        (le_trans (hcur t) (by omega))
  split
  · refine sigInv_step_advance _ _ _ (hs2 _) (le_trans htarget (by omega))
  · exact hs2 _

theorem sigInv_tick (tm : TrigModel) (htm : tm.InRange) (s : SigState)
    (now_ms : ℕ) (hs : SigInv s) : SigInv (signature_tick tm s now_ms) := by
  obtain ⟨h1, h2, h3, h4, h5, h6, h7⟩ := hs
  unfold signature_tick
  split
  · exact ⟨h1, h2, h3, h4, h5, h6, h7⟩
  · split
    · refine sigInv_fade_tick tm htm _ now_ms ?_
      split
      · exact ⟨h1, h2, h3, h4, h5, h6, h7⟩
      · exact ⟨h1, h2, h3, h4, h5, h6, h7⟩
    · split
      · exact ⟨h1, h2, h3, h4, h5, h6, h7⟩
      · refine sigInv_step_tick tm htm _ now_ms ?_
        split
        · exact ⟨h1, h2, h3, h4, Nat.zero_le _, h6, h7⟩
        · exact ⟨h1, h2, h3, h4, h5, h6, h7⟩

/-- C3.  The signature player's hard safety ceilings:
`signature_safe_vibration(requested) ≤ 65` and
`signature_safe_thermal(requested) ≤ 70` for every requested ∈ [0,255];
and for every sequence of player operations (any patterns, any
caller-requested scales, any tick times) the intensity driven on the
vibration channel never exceeds 65 and the intensity driven on the thermal
channel never exceeds 70.  `tm` is any model of the trig library calls
satisfying their range facts. -/
theorem c3_signature_safety_ceilings (tm : TrigModel) (htm : tm.InRange) :
    (∀ requested : ℕ, requested ≤ 255 →
      signature_safe_vibration requested ≤ 65 ∧
      signature_safe_thermal requested ≤ 70) ∧
    (∀ evs : List SigEvent,
      (runSig tm evs).vib_output ≤ 65 ∧ (runSig tm evs).thermal_output ≤ 70) := by
  constructor
  · intro requested _
    exact ⟨(signature_safe_vibration_le requested).2,
           (signature_safe_thermal_le requested).2⟩
  · have hrun : ∀ (evs : List SigEvent) (s : SigState), SigInv s →
        SigInv (evs.foldl (sigStepEvent tm) s) := by
      intro evs
      induction evs with
      | nil => intro s hs; exact hs
      | cons ev rest ih =>
        intro s hs
        refine ih _ ?_
        cases ev with
        | evPlay p sc => exact sigInv_play s p sc hs
        | evTick now => exact sigInv_tick tm htm s now hs
        | evStop => exact sigInv_stop s hs
        | evStopNow => exact sigInv_stop_immediate s hs
    intro evs
    obtain ⟨h1, h2, _⟩ := hrun evs signature_init sigInv_init
    exact ⟨h1, h2⟩

/-- A concrete trig model for the closed instance of C3 (any functions in
range will do). -/
def tmWitness : TrigModel :=
  { cosHalfPi := fun _ => 1/2, sinHalfPi := fun _ => 1/2, cosPi := fun _ => 0 }

/-- Closed instance of C3: playing the heartbeat pattern at maximal
requested scale and ticking twice keeps both channels under their
ceilings. -/
theorem c3_signature_safety_witness :
    (runSig tmWitness [SigEvent.evPlay SIG_HEARTBEAT 255, SigEvent.evTick 10,
        SigEvent.evTick 100]).vib_output ≤ 65 ∧
    (runSig tmWitness [SigEvent.evPlay SIG_HEARTBEAT 255, SigEvent.evTick 10,
        SigEvent.evTick 100]).thermal_output ≤ 70 :=
  (c3_signature_safety_ceilings tmWitness (by
    intro t ht0 ht1
    refine ⟨⟨?_, ?_⟩, ⟨?_, ?_⟩, ?_, ?_⟩ <;> norm_num [tmWitness])).2
    [SigEvent.evPlay SIG_HEARTBEAT 255, SigEvent.evTick 10, SigEvent.evTick 100]
